import Mathlib

/-! AVR library: FAT16/FAT32 driver header (`src/libs/avr_lib/sd/fat.h`),
first-order process model (`src/inprogress/pid_fixed_example/model.c`) and
character LCD driver (`src/libs/avr_lib/devices/hd44780.c`)

Shallow embedding of the on-disk layout constants, the attribute and
long-name masks, the table sentinels, the file-system type tags, the
result-code enumerations and the record types declared in `fat.h`, of the
functions of `model.c`, and of the functions of `hd44780.c` over the levels of
the pins they drive, followed by the properties proved about them.

Machine integers are natural numbers; a `uintN_t` value is a natural number
below `2 ^ N`, and the C operators that can wrap are reduced modulo `2 ^ N`
explicitly.
-/

namespace Fat

/-! ## On-disk fields -/

/-- A field of an on-disk structure: the byte offset where it starts and its
width in bytes. -/
structure Field where
  offset : Nat
  width : Nat
  deriving DecidableEq

/-- First byte after the field. -/
def Field.stop (f : Field) : Nat := f.offset + f.width

/-! ## MBR (fat.h:126-133) -/

def FAT_MBR_PARTITION_ENTRY_OFFSET : Nat := 0x1BE
def FAT_MBR_PARTITION_TYPE : Nat := 0x04
def FAT_MBR_PARTITION_START : Nat := 0x08
def FAT_MBR_PARTITION_SIZE : Nat := 0x0C

/-- Absolute offset, in sector 0, of a field of the first partition entry:
the entry's offset plus the field's offset relative to the entry. -/
def mbrFieldOffset (rel : Nat) : Nat := FAT_MBR_PARTITION_ENTRY_OFFSET + rel

/-- The three fields read from the first partition entry, with the widths of
the on-disk layout (type 1 byte, LBA start 4 bytes, size 4 bytes). -/
def mbrFields : List Field :=
  [ ⟨mbrFieldOffset FAT_MBR_PARTITION_TYPE, 1⟩,
    ⟨mbrFieldOffset FAT_MBR_PARTITION_START, 4⟩,
    ⟨mbrFieldOffset FAT_MBR_PARTITION_SIZE, 4⟩ ]

/-! ## Boot record (fat.h:135-170) -/

def FAT_BPB_BYTES_PER_SECTOR : Nat := 0x0B
def FAT_BPB_SECTORS_PER_CLUSTER : Nat := 0x0D
def FAT_BPB_RESERVED_SECTORS : Nat := 0x0E
def FAT_BPB_NR_OF_FATS : Nat := 0x10
def FAT_BPB_ROOT_DIR_ENTRIES : Nat := 0x11
def FAT_BPB_TOT_SEC_16 : Nat := 0x13
def FAT_BPB_FAT_SZ_16 : Nat := 0x16
def FAT_BPB_TOT_SEC_32 : Nat := 0x20
def FAT16_BS_VOL_ID : Nat := 39
def FAT32_BPB_FAT_SZ_32 : Nat := 36
def FAT32_BPB_EXT_FLAFS : Nat := 40
def FAT32_BPB_FS_VER : Nat := 42
def FAT32_BPB_ROOT_CLUST : Nat := 44
def FAT32_BPB_FS_INFO : Nat := 48
def FAT32_BPB_BK_BOOT_SECTOR : Nat := 50

/-- The boot-record fields of the layout table, in the order of their
offsets, with the on-disk widths: bytes/sector (2), sectors/cluster (1),
reserved sectors (2), FAT copy count (1), root entry count (2), 16-bit total
sectors (2), 16-bit FAT size (2), 32-bit total sectors (4), FAT32 32-bit FAT
size (4), FAT32 root first cluster (4). -/
def bpbFields : List Field :=
  [ ⟨FAT_BPB_BYTES_PER_SECTOR, 2⟩,
    ⟨FAT_BPB_SECTORS_PER_CLUSTER, 1⟩,
    ⟨FAT_BPB_RESERVED_SECTORS, 2⟩,
    ⟨FAT_BPB_NR_OF_FATS, 1⟩,
    ⟨FAT_BPB_ROOT_DIR_ENTRIES, 2⟩,
    ⟨FAT_BPB_TOT_SEC_16, 2⟩,
    ⟨FAT_BPB_FAT_SZ_16, 2⟩,
    ⟨FAT_BPB_TOT_SEC_32, 4⟩,
    ⟨FAT32_BPB_FAT_SZ_32, 4⟩,
    ⟨FAT32_BPB_ROOT_CLUST, 4⟩ ]

/-! ## Directory entry (fat.h:83-89, 172-184) -/

def FAT_DIR_FREE_SLOT : Nat := 0x00
def FAT_FILE_DELETED : Nat := 0xE5
def FAT_FILE_E5_CHAR : Nat := 0x05
def FAT_LFN_MAX_CHARS : Nat := 13

def FAT_DIR_NAME : Nat := 0x00
def FAT_DIR_ATTR : Nat := 11
def FAT_DIR_NT_RES : Nat := 12
def FAT_DIR_CREAT_TIME_MILLIS : Nat := 13
def FAT_DIR_CREAT_TIME : Nat := 14
def FAT_DIR_CREAT_DATE : Nat := 16
def FAT_DIR_LAST_ACC_DATE : Nat := 18
def FAT_DIR_FIRST_CLUS_HIGH : Nat := 20
def FAT_DIR_WRITE_TIME : Nat := 22
def FAT_DIR_WRITE_DATE : Nat := 24
def FAT_DIR_FIRST_CLUS_LOW : Nat := 26
def FAT_DIR_FILE_SIZE : Nat := 28

/-- Size in bytes of one directory slot (short entry or LFN entry); the
comment of `FAT.entries_per_sector` (fat.h:288-290) gives it: "given a 32
bytes entry". -/
def FAT_DIR_ENTRY_SIZE : Nat := 32

/-- The fields of the short directory entry in the order of the `FAT_DIR_*`
definitions, with the on-disk widths: name (11), attributes (1), reserved
(1), creation time-millis (1), creation time (2), creation date (2),
last-access date (2), first-cluster-high (2), write time (2), write date
(2), first-cluster-low (2), file size (4). -/
def dirFields : List Field :=
  [ ⟨FAT_DIR_NAME, 11⟩,
    ⟨FAT_DIR_ATTR, 1⟩,
    ⟨FAT_DIR_NT_RES, 1⟩,
    ⟨FAT_DIR_CREAT_TIME_MILLIS, 1⟩,
    ⟨FAT_DIR_CREAT_TIME, 2⟩,
    ⟨FAT_DIR_CREAT_DATE, 2⟩,
    ⟨FAT_DIR_LAST_ACC_DATE, 2⟩,
    ⟨FAT_DIR_FIRST_CLUS_HIGH, 2⟩,
    ⟨FAT_DIR_WRITE_TIME, 2⟩,
    ⟨FAT_DIR_WRITE_DATE, 2⟩,
    ⟨FAT_DIR_FIRST_CLUS_LOW, 2⟩,
    ⟨FAT_DIR_FILE_SIZE, 4⟩ ]

/-! ## File attributes (fat.h:186-199) -/

def FAT_FILE_ATTR_READ_ONLY : Nat := 0x01
def FAT_FILE_ATTR_HIDDEN : Nat := 0x02
def FAT_FILE_ATTR_SYSTEM : Nat := 0x04
def FAT_FILE_ATTR_VOLUME_ID : Nat := 0x08
def FAT_FILE_ATTR_DIRECTORY : Nat := 0x10
def FAT_FILE_ATTR_ARCHIVE : Nat := 0x20

def FAT_FILE_ATTR_LONG_NAME : Nat :=
  FAT_FILE_ATTR_READ_ONLY ||| FAT_FILE_ATTR_HIDDEN ||| FAT_FILE_ATTR_SYSTEM |||
    FAT_FILE_ATTR_VOLUME_ID

def FAT_FILE_ATTR_LONG_NAME_MASK : Nat :=
  FAT_FILE_ATTR_READ_ONLY ||| FAT_FILE_ATTR_HIDDEN ||| FAT_FILE_ATTR_SYSTEM |||
    FAT_FILE_ATTR_VOLUME_ID ||| FAT_FILE_ATTR_DIRECTORY ||| FAT_FILE_ATTR_ARCHIVE

/-! ## Long directory entry (fat.h:201-218) -/

def FAT_LONG_DIR_ORDER : Nat := 0
def FAT_LAST_LONG_ENTRY_MASK : Nat := 0x40
def FAT_LONG_DIR_NAME : Nat := 1
def FAT_LONG_DIR_ATTR : Nat := 11
def FAT_LONG_DIR_TYPE : Nat := 12
def FAT_LONG_DIR_CHECKSUM : Nat := 13
def FAT_LONG_DIR_NAME2 : Nat := 14
def FAT_LONG_DIR_FIRST_CLST_LOW : Nat := 26
def FAT_LONG_DIR_NAME3 : Nat := 28

/-- The three name fields of an LFN entry: each starts at its `FAT_LONG_DIR_NAME*`
offset and runs up to the next non-name field (the attribute byte, the cluster
field, the end of the 32-byte entry). -/
def lfnNameFields : List Field :=
  [ ⟨FAT_LONG_DIR_NAME, FAT_LONG_DIR_ATTR - FAT_LONG_DIR_NAME⟩,
    ⟨FAT_LONG_DIR_NAME2, FAT_LONG_DIR_FIRST_CLST_LOW - FAT_LONG_DIR_NAME2⟩,
    ⟨FAT_LONG_DIR_NAME3, FAT_DIR_ENTRY_SIZE - FAT_LONG_DIR_NAME3⟩ ]

/-- The fields of an LFN entry that hold no name character: order (1 byte),
attribute (1), type (1), checksum (1), must-be-zero cluster (2). -/
def lfnOtherFields : List Field :=
  [ ⟨FAT_LONG_DIR_ORDER, 1⟩,
    ⟨FAT_LONG_DIR_ATTR, 1⟩,
    ⟨FAT_LONG_DIR_TYPE, 1⟩,
    ⟨FAT_LONG_DIR_CHECKSUM, 1⟩,
    ⟨FAT_LONG_DIR_FIRST_CLST_LOW, 2⟩ ]

/-- Number of two-byte characters a name field holds. -/
def lfnFieldChars (f : Field) : Nat := f.width / 2

/-! ## FAT table sentinels (fat.h:91-105) -/

def FAT16_FREE_CLUSTER : Nat := 0x0000
def FAT16_BAD_CLUSTER : Nat := 0xFFF7
def FAT16_EOF_CLUSTER : Nat := 0xFFFF

def FAT32_FREE_CLUSTER : Nat := 0x0000000
def FAT32_BAD_CLUSTER : Nat := 0xFFFFFF7
def FAT32_EOF_CLUSTER : Nat := 0x0FFFFFFF
def FAT32_MAX_CLUSTER : Nat := 0xFFFFFF7

/-- Modelled from the spec: the mask applied to a FAT32 table entry when it is
read is used in `fat.c`, which is not among the sources; the spec describes it
as "top 4 bits reserved and masked off on read", that is, the low 28 bits of
the 32-bit entry are kept. -/
def fat32ReadMask : Nat := 0x0FFFFFFF

/-- Largest value a 2-byte FAT16 table entry can hold. -/
def fat16EntryMax : Nat := 2 ^ 16 - 1

/-! ## File-system type tags (fat.h:119-123) -/

def FS_FAT12 : Nat := 0
def FS_FAT16 : Nat := 1
def FS_FAT32 : Nat := 2
def FS_EXFAT : Nat := 3

/-- C's `x << s` on a `uint32_t` operand: the shifted value reduced modulo
`2 ^ 32`. -/
def shl32 (x s : Nat) : Nat := (x <<< s) % 2 ^ 32

/-- Width in bytes of one FAT table entry as documented for `FAT.FATDataSize`
(fat.h:287: "2-bytes if FAT16, 4-bytes if FAT32"); no width is documented for
any other type tag. -/
def fatDataSize (fs_type : Nat) : Option Nat :=
  if fs_type = FS_FAT16 then some 2
  else if fs_type = FS_FAT32 then some 4
  else none

/-! ## Result codes (fat.h:236-265) -/

/-- Values C gives to the enumerators of an `enum` declaration, listed in
declaration order: an enumerator written with `= v` has value `v`, any other
has the value of its predecessor plus one (`next`), the first one zero. -/
def enumValuesFrom {α : Type} (next : Nat) : List (α × Option Nat) → List (α × Nat)
  | [] => []
  | (e, some v) :: rest => (e, v) :: enumValuesFrom (v + 1) rest
  | (e, none) :: rest => (e, next) :: enumValuesFrom (next + 1) rest

/-- Values of a whole `enum` declaration. -/
def enumValues {α : Type} (decl : List (α × Option Nat)) : List (α × Nat) :=
  enumValuesFrom 0 decl

/-- Volume mounting return codes (fat.h:237-246). -/
inductive FAT_MOUNT_RESULT where
  | MR_OK
  | MR_DEVICE_INIT_FAIL
  | MR_ERR
  | MR_NO_PARTITION
  | MR_FAT_ERR
  | MR_UNSUPPORTED_FS
  | MR_UNSUPPORTED_BS
  deriving DecidableEq

/-- The enumerators of `FAT_MOUNT_RESULT` as declared: only `MR_OK` carries an
explicit value. -/
def FAT_MOUNT_RESULT.decl : List (FAT_MOUNT_RESULT × Option Nat) :=
  [ (.MR_OK, some 0),
    (.MR_DEVICE_INIT_FAIL, none),
    (.MR_ERR, none),
    (.MR_NO_PARTITION, none),
    (.MR_FAT_ERR, none),
    (.MR_UNSUPPORTED_FS, none),
    (.MR_UNSUPPORTED_BS, none) ]

/-- Integer value of a mount result code. -/
def FAT_MOUNT_RESULT.val (r : FAT_MOUNT_RESULT) : Option Nat :=
  (enumValues FAT_MOUNT_RESULT.decl).lookup r

/-- File function return codes (fat.h:249-265). -/
inductive FAT_FRESULT where
  | FR_OK
  | FR_EOF
  | FR_NOT_FOUND
  | FR_NO_PATH
  | FR_NO_SPACE
  | FR_EXIST
  | FR_INCORRECT_ENTRY
  | FR_DENIED
  | FR_PATH_LENGTH_EXCEEDED
  | FR_NOT_A_DIRECTORY
  | FR_ROOT_DIR
  | FR_INDEX_OUT_OF_RANGE
  | FR_DEVICE_ERR
  deriving DecidableEq

/-- The enumerators of `FAT_FRESULT` as declared: only `FR_OK` carries an
explicit value. -/
def FAT_FRESULT.decl : List (FAT_FRESULT × Option Nat) :=
  [ (.FR_OK, some 0),
    (.FR_EOF, none),
    (.FR_NOT_FOUND, none),
    (.FR_NO_PATH, none),
    (.FR_NO_SPACE, none),
    (.FR_EXIST, none),
    (.FR_INCORRECT_ENTRY, none),
    (.FR_DENIED, none),
    (.FR_PATH_LENGTH_EXCEEDED, none),
    (.FR_NOT_A_DIRECTORY, none),
    (.FR_ROOT_DIR, none),
    (.FR_INDEX_OUT_OF_RANGE, none),
    (.FR_DEVICE_ERR, none) ]

/-- Integer value of a file result code. -/
def FAT_FRESULT.val (r : FAT_FRESULT) : Option Nat :=
  (enumValues FAT_FRESULT.decl).lookup r

/-! ## Volume record (fat.h:267-294) and mounting -/

/-- File system object structure `FAT` (fat.h:268-294), with the width of
each member's C type; `CLSTSIZE_t` is `uint32_t` because `FAT_SUPPORT_FAT32`
is 1 (fat.h:57, 230-234). -/
structure FAT where
  /-- Member of type `uint32_t`. -/
  fs_partition_offset : Nat
  /-- Member of type `uint32_t`. -/
  BPB_TotSec32 : Nat
  /-- Member of type `uint32_t`. -/
  EOC : Nat
  /-- Member of type `CLSTSIZE_t`. -/
  CountofClusters : Nat
  /-- Member of type `uint32_t`. -/
  FATSz : Nat
  /-- Member of type `uint16_t`. -/
  BPB_BytsPerSec : Nat
  /-- Member of type `uint16_t`. -/
  RootDirSectors : Nat
  /-- Member of type `uint32_t`. -/
  RootFirstCluster : Nat
  /-- Member of type `uint16_t`. -/
  RootFirstSector : Nat
  /-- Member of type `uint16_t`. -/
  FirstDataSector : Nat
  /-- Member of type `uint16_t`. -/
  Fat1StartSector : Nat
  /-- Member of type `uint16_t`. -/
  Fat2StartSector : Nat
  /-- Member of type `uint8_t`. -/
  FATDataSize : Nat
  /-- Member of type `uint8_t`. -/
  entries_per_sector : Nat
  /-- Member of type `uint8_t`. -/
  fs_low_level_code : Nat
  /-- Member of type `uint8_t`. -/
  fs_type : Nat
  /-- Member of type `uint8_t`. -/
  BPB_SecPerClus : Nat
  deriving DecidableEq

/-- Conversion of a value to `uint8_t` on assignment. -/
def toU8 (x : Nat) : Nat := x % 2 ^ 8

/-- Conversion of a value to `uint16_t` on assignment. -/
def toU16 (x : Nat) : Nat := x % 2 ^ 16

/-- Conversion of a value to `uint32_t` on assignment. -/
def toU32 (x : Nat) : Nat := x % 2 ^ 32

/-- The boot-record fields the mount reads, already decoded from the sector at
the `FAT_BPB_*` / `FAT32_BPB_*` offsets. -/
structure BootRecord where
  /-- Field at `FAT_BPB_BYTES_PER_SECTOR`. -/
  BytsPerSec : Nat
  /-- Field at `FAT_BPB_SECTORS_PER_CLUSTER`. -/
  SecPerClus : Nat
  /-- Field at `FAT_BPB_RESERVED_SECTORS`. -/
  RsvdSecCnt : Nat
  /-- Field at `FAT_BPB_NR_OF_FATS`. -/
  NumFATs : Nat
  /-- Field at `FAT_BPB_ROOT_DIR_ENTRIES`. -/
  RootEntCnt : Nat
  /-- Field at `FAT_BPB_TOT_SEC_16`. -/
  TotSec16 : Nat
  /-- Field at `FAT_BPB_FAT_SZ_16`. -/
  FATSz16 : Nat
  /-- Field at `FAT_BPB_TOT_SEC_32`. -/
  TotSec32 : Nat
  /-- Field at `FAT32_BPB_FAT_SZ_32`. -/
  FATSz32 : Nat
  /-- Field at `FAT32_BPB_ROOT_CLUST`. -/
  RootClus : Nat
  deriving DecidableEq

/-- Modelled from the spec: the sector size the driver supports. The body of
`FAT_mountVolume` is in `fat.c`, which is not among the sources; the spec gives
the block adapter a 512-byte sector (`readSector(lba) -> 512-byte buffer`) and
one sector-sized buffer, and fails the mount for any other size. -/
def supportedSectorSize : Nat := 512

/-- Modelled from the spec: total sector count of the volume, part of the
absent `FAT_mountVolume`: "the 32-bit field wins when the 16-bit field is
zero". -/
def totalSectors (b : BootRecord) : Nat :=
  if b.TotSec16 = 0 then b.TotSec32 else b.TotSec16

/-- Modelled from the spec: size of one FAT in sectors, part of the absent
`FAT_mountVolume`: "the 32-bit field wins when the 16-bit field is zero". -/
def fatSize (b : BootRecord) : Nat :=
  if b.FATSz16 = 0 then b.FATSz32 else b.FATSz16

/-- Modelled from the spec: root-directory sector count, part of the absent
`FAT_mountVolume`: the sectors taken by the root directory's 32-byte entries,
rounded up to whole sectors; it is 0 for FAT32, whose root-entry count is 0. -/
def rootDirSectors (b : BootRecord) : Nat :=
  (b.RootEntCnt * FAT_DIR_ENTRY_SIZE + (b.BytsPerSec - 1)) / b.BytsPerSec

/-- Modelled from the spec: first sector of the data region relative to the
volume start, part of the absent `FAT_mountVolume`: the reserved sectors, then
every FAT copy, then the root directory. -/
def firstDataSector (b : BootRecord) : Nat :=
  b.RsvdSecCnt + b.NumFATs * fatSize b + rootDirSectors b

/-- Modelled from the spec: count of clusters, part of the absent
`FAT_mountVolume`: "count-of-clusters = (total data sectors) /
sectors-per-cluster", the data sectors being those from the first data sector
to the end of the volume. -/
def countOfClusters (b : BootRecord) : Nat :=
  (totalSectors b - firstDataSector b) / b.SecPerClus

/-- Modelled from the spec: the classification step of the absent
`FAT_mountVolume`: "variant is derived solely from cluster count thresholds
(< 4085 → FAT12/unsupported, < 65525 → FAT16, else FAT32)"; `none` stands for
the unsupported FAT12 case. -/
def classifyVariant (n : Nat) : Option Nat :=
  if n < 4085 then none
  else if n < 65525 then some FS_FAT16
  else some FS_FAT32

/-- The volume record before a successful mount: every member zero, `fs_type`
0 meaning "not mounted" (fat.h:292). -/
def FAT.unmounted : FAT :=
  { fs_partition_offset := 0, BPB_TotSec32 := 0, EOC := 0, CountofClusters := 0,
    FATSz := 0, BPB_BytsPerSec := 0, RootDirSectors := 0, RootFirstCluster := 0,
    RootFirstSector := 0, FirstDataSector := 0, Fat1StartSector := 0,
    Fat2StartSector := 0, FATDataSize := 0, entries_per_sector := 0,
    fs_low_level_code := 0, fs_type := 0, BPB_SecPerClus := 0 }

/-- Modelled from the spec: `FAT_mountVolume` (prototype at fat.h:354; its body
is in `fat.c`, which is not among the sources), from the decoded boot record of
the partition starting at sector `part` onwards. An unsupported sector size
fails with `MR_UNSUPPORTED_BS`; a zero sectors-per-cluster fails the mount (the
spec names no code, `MR_FAT_ERR`, the general FAT error, is used); a cluster
count below the FAT16 floor fails with `MR_UNSUPPORTED_FS`; otherwise the
volume record is filled, each member converted to its declared C type, and the
result is `MR_OK`. -/
def FAT_mountVolume (part : Nat) (b : BootRecord) : FAT_MOUNT_RESULT × FAT :=
  if b.BytsPerSec ≠ supportedSectorSize then (.MR_UNSUPPORTED_BS, FAT.unmounted)
  else if b.SecPerClus = 0 then (.MR_FAT_ERR, FAT.unmounted)
  else
    match classifyVariant (countOfClusters b) with
    | none => (.MR_UNSUPPORTED_FS, FAT.unmounted)
    | some t =>
      (.MR_OK,
        { fs_partition_offset := toU32 part
          BPB_TotSec32 := toU32 (totalSectors b)
          EOC := if t = FS_FAT16 then FAT16_EOF_CLUSTER else FAT32_EOF_CLUSTER
          CountofClusters := toU32 (countOfClusters b)
          FATSz := toU32 (fatSize b)
          BPB_BytsPerSec := toU16 b.BytsPerSec
          RootDirSectors := toU16 (rootDirSectors b)
          RootFirstCluster := if t = FS_FAT16 then 0 else toU32 b.RootClus
          RootFirstSector := toU16 (b.RsvdSecCnt + b.NumFATs * fatSize b)
          FirstDataSector := toU16 (firstDataSector b)
          Fat1StartSector := toU16 b.RsvdSecCnt
          Fat2StartSector := toU16 (b.RsvdSecCnt + fatSize b)
          FATDataSize := toU8 (1 <<< t)
          entries_per_sector := toU8 (b.BytsPerSec / FAT_DIR_ENTRY_SIZE)
          fs_low_level_code := 0
          fs_type := t
          BPB_SecPerClus := toU8 b.SecPerClus })

/-- A FAT16 volume used as a concrete instance: 512-byte sectors, 8 sectors
per cluster, 1 reserved sector, 2 FATs of 32 sectors, 512 root entries, 65633
sectors in the 32-bit field; it has 8192 clusters. -/
def sampleFat16 : BootRecord :=
  { BytsPerSec := 512, SecPerClus := 8, RsvdSecCnt := 1, NumFATs := 2,
    RootEntCnt := 512, TotSec16 := 0, FATSz16 := 32, TotSec32 := 65633,
    FATSz32 := 0, RootClus := 0 }

/-- A second FAT16 volume with other geometry and the same 8192 clusters: 4
sectors per cluster, 32865 sectors in the 16-bit field. -/
def sampleFat16Small : BootRecord :=
  { BytsPerSec := 512, SecPerClus := 4, RsvdSecCnt := 1, NumFATs := 2,
    RootEntCnt := 512, TotSec16 := 32865, FATSz16 := 32, TotSec32 := 0,
    FATSz32 := 0, RootClus := 0 }

/-- A FAT32 volume used as a concrete instance: 512-byte sectors, 8 sectors
per cluster (4 KiB clusters), 32 reserved sectors, 2 FATs of 65536 sectors
each, 67239952 sectors in the 32-bit field (about 34 GB); it has 8388606
clusters, whose 4-byte entries (plus the two reserved ones) fill the 65536 FAT
sectors exactly. -/
def sampleFat32Large : BootRecord :=
  { BytsPerSec := 512, SecPerClus := 8, RsvdSecCnt := 32, NumFATs := 2,
    RootEntCnt := 0, TotSec16 := 0, FATSz16 := 0, TotSec32 := 67239952,
    FATSz32 := 65536, RootClus := 2 }

/-! ## Directory cursor and file handle (fat.h:296-339) -/

/-- Directory object structure `FAT_DIR` (fat.h:297-314); `CLSTSIZE_t` and
`SECTSIZE_t` are `uint32_t` (fat.h:228-234). The path pointer is kept as the
bytes it points to. -/
structure FAT_DIR where
  /-- Member of type `bool`. -/
  dir_open : Bool
  /-- Member of type `bool`. -/
  dir_open_by_idx : Bool
  /-- Member of type `uint16_t`. -/
  dir_nr_of_entries : Nat
  /-- Member of type `CLSTSIZE_t`. -/
  dir_start_cluster : Nat
  /-- Member of type `CLSTSIZE_t`. -/
  dir_active_cluster : Nat
  /-- Member of type `SECTSIZE_t`. -/
  dir_start_sector : Nat
  /-- Member of type `uint16_t`. -/
  dir_active_sector : Nat
  /-- Member of type `uint16_t`. -/
  dir_active_item : Nat
  /-- Member of type `uint8_t`. -/
  dir_entry_offset : Nat
  /-- Member of type `uint16_t`. -/
  dir_nr_of_items : Nat
  /-- Member of type `uint16_t`. -/
  find_by_index : Nat
  /-- Member of type `uint8_t`. -/
  filename_length : Nat
  /-- Member of type `const char *`. -/
  ptr_path_buff : List Nat
  deriving DecidableEq

/-- File information structure `FAT_FILE` (fat.h:317-339). -/
structure FAT_FILE where
  /-- Member of type `uint8_t`. -/
  file_err : Nat
  /-- Member of type `FSIZE_t` (`uint32_t`). -/
  fptr : Nat
  /-- Member of type `uint8_t`. -/
  file_attrib : Nat
  /-- Member of type `uint16_t`. -/
  file_write_time : Nat
  /-- Member of type `uint16_t`. -/
  file_write_date : Nat
  /-- Member of type `FSIZE_t` (`uint32_t`). -/
  file_size : Nat
  /-- Member of type `CLSTSIZE_t`. -/
  file_start_cluster : Nat
  /-- Member of type `CLSTSIZE_t`. -/
  file_active_cluster : Nat
  /-- Member of type `uint32_t`. -/
  file_start_sector : Nat
  /-- Member of type `uint16_t`. -/
  file_active_sector : Nat
  /-- Member of type `uint16_t`. -/
  buffer_idx : Nat
  /-- Member of type `SECTSIZE_t`. -/
  entry_start_sector : Nat
  /-- Member of type `uint8_t`. -/
  entry_offset : Nat
  /-- Member of type `bool`. -/
  file_update_size : Bool
  /-- Member of type `bool`. -/
  file_open : Bool
  /-- Member of type `bool`. -/
  w_sec_changed : Bool
  /-- Member of type `bool`. -/
  eof : Bool
  deriving DecidableEq

/-- The assignment `dir_p->dir_entry_offset = v`: the value is converted to the
member's type, `uint8_t` (fat.h:309). -/
def FAT_DIR.set_dir_entry_offset (d : FAT_DIR) (v : Nat) : FAT_DIR :=
  { d with dir_entry_offset := toU8 v }

/-- The assignment `fp->entry_offset = v`: the value is converted to the
member's type, `uint8_t` (fat.h:334). -/
def FAT_FILE.set_entry_offset (fp : FAT_FILE) (v : Nat) : FAT_FILE :=
  { fp with entry_offset := toU8 v }

/-- Byte offset, within its sector, of the `k`-th 32-byte directory entry. -/
def entryByteOffset (k : Nat) : Nat := FAT_DIR_ENTRY_SIZE * k

/-- A closed directory cursor with every member zero. -/
def FAT_DIR.zero : FAT_DIR :=
  { dir_open := false, dir_open_by_idx := false, dir_nr_of_entries := 0,
    dir_start_cluster := 0, dir_active_cluster := 0, dir_start_sector := 0,
    dir_active_sector := 0, dir_active_item := 0, dir_entry_offset := 0,
    dir_nr_of_items := 0, find_by_index := 0, filename_length := 0,
    ptr_path_buff := [] }

/-- A closed file handle with every member zero. -/
def FAT_FILE.zero : FAT_FILE :=
  { file_err := 0, fptr := 0, file_attrib := 0, file_write_time := 0,
    file_write_date := 0, file_size := 0, file_start_cluster := 0,
    file_active_cluster := 0, file_start_sector := 0, file_active_sector := 0,
    buffer_idx := 0, entry_start_sector := 0, entry_offset := 0,
    file_update_size := false, file_open := false, w_sec_changed := false,
    eof := false }

end Fat

/-! ## First-order process model (`src/inprogress/pid_fixed_example/model.c`) -/

namespace Model

/-- The fixed-point arithmetic `model.c` relies on. The type `Q7_8` and the
macros `FIXEDPT_MULT`, `FIXEDPT_DIV` and `FIXEDPT_CONST` come from headers that
are not among the sources, so the number type `α` and the operations are
parameters; `add` and `sub` are C's `+` and `-=` on that type. -/
structure FixedPt (α : Type) where
  FIXEDPT_MULT : α → α → α
  FIXEDPT_DIV : α → α → α
  FIXEDPT_CONST : Nat → α
  add : α → α → α
  sub : α → α → α

/-- The operations read as exact arithmetic on the rationals: exact product,
exact quotient, the constant itself, exact sum and difference. -/
def exactOps : FixedPt ℚ :=
  { FIXEDPT_MULT := fun a b => a * b
    FIXEDPT_DIV := fun a b => a / b
    FIXEDPT_CONST := fun n => (n : ℚ)
    add := fun a b => a + b
    sub := fun a b => a - b }

/-- The model state `MODEL_t` as `model.c` uses it (its declaration is in
`model.h`, not among the sources): gain, time constant, last output, dead time
in samples, and the array `input_hist` points to. The dead time is a natural
number: the loops of `model.c` count from 0 up to it. -/
structure MODEL_t (α : Type) where
  kp : α
  tau : α
  output : α
  deadtime : Nat
  input_hist : List α

/-- The initialisation record `MODEL_init_t` as `MODEL_init` reads it. -/
structure MODEL_init_t (α : Type) where
  kp : α
  tau : α
  initial_output : α
  initial_input : α
  deadtime : Nat

/-- The loop `for (i = 0; i < deadtime + 1; i++) input_hist[i] = initial_input`
(model.c:20-23) with `k` iterations left and counter `i`. -/
def fillLoop {α : Type} (x : α) : Nat → Nat → List α → List α
  | 0, _, h => h
  | k + 1, i, h => fillLoop x k (i + 1) (h.set i x)

/-- `MODEL_init` (model.c:6-25). `allocOk` tells whether `calloc` returns a
block; `zero` is the value of a zero-filled sample. When the allocation fails
the function returns after the four scalar assignments. -/
def MODEL_init {α : Type} (allocOk : Bool) (zero : α) (model : MODEL_t α)
    (init : MODEL_init_t α) : MODEL_t α :=
  let model := { model with kp := init.kp }
  let model := { model with tau := init.tau }
  let model := { model with output := init.initial_output }
  let model := { model with deadtime := init.deadtime }
  if allocOk then
    let input_hist := List.replicate (init.deadtime + 1) zero
    let input_hist := fillLoop init.initial_input (init.deadtime + 1) 0 input_hist
    { model with input_hist := input_hist }
  else
    model

/-- The loop `for (i = 0; i < deadtime; i++) input_hist[i] = input_hist[i + 1]`
(model.c:30-33) with `k` iterations left and counter `i`; `none` when an index
falls outside the array. -/
def shiftLoop {α : Type} : Nat → Nat → List α → Option (List α)
  | 0, _, h => some h
  | k + 1, i, h =>
    match h[i + 1]? with
    | none => none
    | some v => shiftLoop k (i + 1) (h.set i v)

/-- The arithmetic of `MODEL_update` (model.c:40-46) on the sample `x` taken
from `input_hist[0]`. -/
def newOutput {α : Type} (ops : FixedPt α) (kp tau output x : α) : α :=
  let o1 := ops.FIXEDPT_MULT kp x
  let o1 := ops.FIXEDPT_DIV o1 tau
  let o2 := ops.FIXEDPT_MULT output tau
  let o2 := ops.sub o2 (ops.FIXEDPT_CONST 1)
  let o2 := ops.FIXEDPT_DIV o2 tau
  ops.add o1 o2

/-- `MODEL_update` (model.c:27-49): the returned value and the new state, or
`none` when an array access falls outside `input_hist`. -/
def MODEL_update {α : Type} (ops : FixedPt α) (model : MODEL_t α) (input : α) :
    Option (α × MODEL_t α) :=
  match shiftLoop model.deadtime 0 model.input_hist with
  | none => none
  | some h =>
    if model.deadtime < h.length then
      let h := h.set model.deadtime input
      match h[0]? with
      | none => none
      | some x =>
        let new_output := newOutput ops model.kp model.tau model.output x
        some (new_output, { model with input_hist := h, output := new_output })
    else none

/-- Successive calls of `MODEL_update`, one per input of the list. -/
def MODEL_run {α : Type} (ops : FixedPt α) : MODEL_t α → List α → Option (MODEL_t α)
  | m, [] => some m
  | m, u :: us =>
    match MODEL_update ops m u with
    | none => none
    | some r => MODEL_run ops r.2 us

/-- The input delayed by `d` steps: at step `t` (counted from 1) it is the
input of step `t - d`, and the initial input `x0` while `t <= d`. -/
def delayed {α : Type} (x0 : α) (us : List α) (d t : Nat) : α :=
  if t ≤ d then x0 else us.getD (t - d - 1) x0

end Model

/-! ## Character LCD driver (`src/libs/avr_lib/devices/hd44780.c`) -/

namespace Hd44780

/-- The pins of the LCD interface named in `hd44780.c`; `hd44780_conf.h`, which
maps them to port bits, is not among the sources. -/
inductive Pin where
  | RS | RW | EN | D7 | D6 | D5 | D4 | D3 | D2 | D1 | D0
  deriving DecidableEq

/-- One level per pin. -/
structure Pins where
  rs : Bool
  rw : Bool
  en : Bool
  d7 : Bool
  d6 : Bool
  d5 : Bool
  d4 : Bool
  d3 : Bool
  d2 : Bool
  d1 : Bool
  d0 : Bool
  deriving DecidableEq

/-- Change the level recorded for one pin. -/
def Pins.set (p : Pins) (pin : Pin) (v : Bool) : Pins :=
  match pin with
  | .RS => { p with rs := v }
  | .RW => { p with rw := v }
  | .EN => { p with en := v }
  | .D7 => { p with d7 := v }
  | .D6 => { p with d6 := v }
  | .D5 => { p with d5 := v }
  | .D4 => { p with d4 := v }
  | .D3 => { p with d3 := v }
  | .D2 => { p with d2 := v }
  | .D1 => { p with d1 := v }
  | .D0 => { p with d0 := v }

/-- The pins at a falling edge of EN: the levels written to them and their
directions just before EN goes low. -/
structure Edge where
  value : Pins
  output : Pins
  deriving DecidableEq

/-- State of the GPIO pins the driver owns: the level last written to each pin,
the direction of each pin (`true` for output), the number of `GPIO_getInput`
calls made so far, and the falling edges of EN so far, oldest first. The list of
edges is a record kept for stating what the driver sends; the code does not
read it. -/
structure Lcd where
  value : Pins
  output : Pins
  reads : Nat
  edges : List Edge
  deriving DecidableEq

/-- Write a level to a pin. The GPIO functions are declared in `gpio.h`, not
among the sources; their effect is taken from their names. A write that takes
EN from high to low appends the pins' state to the record of edges. -/
def writePin (pin : Pin) (v : Bool) (s : Lcd) : Lcd :=
  { s with
    value := s.value.set pin v
    edges :=
      match pin, s.value.en, v with
      | .EN, true, false => s.edges ++ [⟨s.value, s.output⟩]
      | _, _, _ => s.edges }

/-- `GPIO_setValueHigh(pin)`. -/
def GPIO_setValueHigh (pin : Pin) (s : Lcd) : Lcd := writePin pin true s

/-- `GPIO_setValueLow(pin)`. -/
def GPIO_setValueLow (pin : Pin) (s : Lcd) : Lcd := writePin pin false s

/-- `GPIO_setValueLogical(pin, v)`: high when `v` is non-zero. -/
def GPIO_setValueLogical (pin : Pin) (v : Nat) (s : Lcd) : Lcd :=
  writePin pin (decide (v ≠ 0)) s

/-- `GPIO_setOutput(pin)`. -/
def GPIO_setOutput (pin : Pin) (s : Lcd) : Lcd :=
  { s with output := s.output.set pin true }

/-- `GPIO_setInput(pin)`. -/
def GPIO_setInput (pin : Pin) (s : Lcd) : Lcd :=
  { s with output := s.output.set pin false }

/-- `GPIO_getInput(pin)`: the level the device shows; `env n` is the level
returned by the call number `n` (counted from 0) of this function. -/
def GPIO_getInput (env : Nat → Bool) (_pin : Pin) (s : Lcd) : Bool × Lcd :=
  (env s.reads, { s with reads := s.reads + 1 })

/-- `__pulseEn` (hd44780.c:20-26); the delays leave the pins unchanged. -/
def __pulseEn (s : Lcd) : Lcd :=
  let s := GPIO_setValueHigh .EN s
  GPIO_setValueLow .EN s

/-- `__selInstrReg` (hd44780.c:28). -/
def __selInstrReg (s : Lcd) : Lcd := GPIO_setValueLow .RS s

/-- `__selDataReg` (hd44780.c:30). -/
def __selDataReg (s : Lcd) : Lcd := GPIO_setValueHigh .RS s

/-- `__setRead` (hd44780.c:32). -/
def __setRead (s : Lcd) : Lcd := GPIO_setValueHigh .RW s

/-- `__setWrite` (hd44780.c:34). -/
def __setWrite (s : Lcd) : Lcd := GPIO_setValueLow .RW s

/-- `__setDataOutput` (hd44780.c:36-50); `m8` is true when `D3` is defined
(`_8BIT_MODE`). The `_DEBUG` lines are taken to expand to nothing. -/
def __setDataOutput (m8 : Bool) (s : Lcd) : Lcd :=
  let s := GPIO_setOutput .D7 s
  let s := GPIO_setOutput .D6 s
  let s := GPIO_setOutput .D5 s
  let s := GPIO_setOutput .D4 s
  if m8 then
    let s := GPIO_setOutput .D3 s
    let s := GPIO_setOutput .D2 s
    let s := GPIO_setOutput .D1 s
    GPIO_setOutput .D0 s
  else s

/-- `__setDataInput` (hd44780.c:52-66). -/
def __setDataInput (m8 : Bool) (s : Lcd) : Lcd :=
  let s := GPIO_setInput .D7 s
  let s := GPIO_setInput .D6 s
  let s := GPIO_setInput .D5 s
  let s := GPIO_setInput .D4 s
  if m8 then
    let s := GPIO_setInput .D3 s
    let s := GPIO_setInput .D2 s
    let s := GPIO_setInput .D1 s
    GPIO_setInput .D0 s
  else s

/-- One step `val += GPIO_getInput(pin) ? w : 0` of `__readDataValue` on the
`uint8_t` accumulator `val`. -/
def readBit (env : Nat → Bool) (pin : Pin) (w : Nat) (acc : Nat × Lcd) : Nat × Lcd :=
  let r := GPIO_getInput env pin acc.2
  (Fat.toU8 (acc.1 + if r.1 then w else 0), r.2)

/-- `__readDataValue` (hd44780.c:68-84). -/
def __readDataValue (m8 : Bool) (env : Nat → Bool) (s : Lcd) : Nat × Lcd :=
  let a := (0, s)
  let a := readBit env .D7 0x80 a
  let a := readBit env .D6 0x40 a
  let a := readBit env .D5 0x20 a
  let a := readBit env .D4 0x10 a
  if m8 then
    let a := readBit env .D3 0x8 a
    let a := readBit env .D2 0x4 a
    let a := readBit env .D1 0x2 a
    readBit env .D0 0x1 a
  else a

/-- `__setDataValue` (hd44780.c:86-101) on a `uint8_t` argument. -/
def __setDataValue (m8 : Bool) (val : Nat) (s : Lcd) : Lcd :=
  let s := GPIO_setValueLogical .D7 (val &&& 0x80) s
  let s := GPIO_setValueLogical .D6 (val &&& 0x40) s
  let s := GPIO_setValueLogical .D5 (val &&& 0x20) s
  let s := GPIO_setValueLogical .D4 (val &&& 0x10) s
  if m8 then
    let s := GPIO_setValueLogical .D3 (val &&& 0x8) s
    let s := GPIO_setValueLogical .D2 (val &&& 0x4) s
    let s := GPIO_setValueLogical .D1 (val &&& 0x2) s
    GPIO_setValueLogical .D0 (val &&& 0x1) s
  else s

/-- The body of the `do ... while (busy)` loop of `__wait` (hd44780.c:111-121):
the value of `busy` and the pins afterwards. -/
def waitBody (m8 : Bool) (env : Nat → Bool) (s : Lcd) : Bool × Lcd :=
  let s := GPIO_setValueLow .EN s
  let s := GPIO_setValueHigh .EN s
  let r := GPIO_getInput env .D7 s
  let busy := r.1
  let s := r.2
  let s := if m8 then s else GPIO_setValueHigh .EN (GPIO_setValueLow .EN s)
  (busy, s)

/-- The `do ... while (busy)` loop of `__wait` (hd44780.c:109-122) with at most
`fuel` iterations; `none` when the device is still busy after them. -/
def waitLoop (m8 : Bool) (env : Nat → Bool) : Nat → Lcd → Option Lcd
  | 0, _ => none
  | fuel + 1, s =>
    let r := waitBody m8 env s
    if r.1 then waitLoop m8 env fuel r.2 else some r.2

/-- `__wait` (hd44780.c:103-127). -/
def __wait (m8 : Bool) (env : Nat → Bool) (fuel : Nat) (s : Lcd) : Option Lcd :=
  let s := __setDataInput m8 s
  let s := __setRead s
  let s := __selInstrReg s
  match waitLoop m8 env fuel s with
  | none => none
  | some s =>
    let s := __setWrite s
    let s := GPIO_setValueLow .EN s
    some (__setDataOutput m8 s)

/-- `__writeInstrReg` (hd44780.c:129-141); `instr << 4` is converted to the
`uint8_t` parameter of `__setDataValue`. -/
def __writeInstrReg (m8 : Bool) (env : Nat → Bool) (fuel : Nat) (instr : Nat) (s : Lcd) :
    Option Lcd :=
  match __wait m8 env fuel s with
  | none => none
  | some s =>
    let s := __setDataValue m8 instr s
    let s := __selInstrReg s
    let s := __pulseEn s
    if m8 then some s
    else
      let s := __setDataValue m8 (Fat.toU8 (instr <<< 4)) s
      let s := __selInstrReg s
      some (__pulseEn s)

/-- `__writeInstrReg_8bit` (hd44780.c:143-150); the call of `__wait` is
commented out in the source. -/
def __writeInstrReg_8bit (m8 : Bool) (instr : Nat) (s : Lcd) : Lcd :=
  let s := __setDataValue m8 instr s
  let s := __selInstrReg s
  __pulseEn s

/-- `__readInstrReg` (hd44780.c:152-172). -/
def __readInstrReg (m8 : Bool) (env : Nat → Bool) (s : Lcd) : Nat × Lcd :=
  let s := __setDataInput m8 s
  let s := __setRead s
  let s := __selInstrReg s
  let s := GPIO_setValueLow .EN s
  let s := GPIO_setValueHigh .EN s
  let r := __readDataValue m8 env s
  let data := r.1
  let s := r.2
  let r :=
    if m8 then (data, s)
    else
      let s := GPIO_setValueLow .EN s
      let s := GPIO_setValueHigh .EN s
      let r2 := __readDataValue m8 env s
      (Fat.toU8 (data + (r2.1 >>> 4)), r2.2)
  (r.1, GPIO_setValueLow .EN r.2)

/-- The pin set-up at the start of `HD44780_init` (hd44780.c:178-186). -/
def initPins (m8 : Bool) (s : Lcd) : Lcd :=
  let s := GPIO_setValueHigh .RS s
  let s := GPIO_setValueHigh .RW s
  let s := GPIO_setValueHigh .EN s
  let s := GPIO_setOutput .RS s
  let s := GPIO_setOutput .RW s
  let s := GPIO_setOutput .EN s
  __setDataOutput m8 s

/-- `HD44780_init` (hd44780.c:175-199): the pin set-up, then the instruction
bytes of lines 188-198. -/
def HD44780_init (m8 : Bool) (env : Nat → Bool) (fuel : Nat) (s : Lcd) : Option Lcd :=
  let s := initPins m8 s
  let r :=
    if m8 then __writeInstrReg m8 env fuel 0x38 s
    else
      let s := __writeInstrReg_8bit m8 0x30 s
      let s := __writeInstrReg_8bit m8 0x20 s
      __writeInstrReg m8 env fuel 0x28 s
  match r with
  | none => none
  | some s =>
    match __writeInstrReg m8 env fuel 0x0C s with
    | none => none
    | some s =>
      match __writeInstrReg m8 env fuel 0x06 s with
      | none => none
      | some s => __writeInstrReg m8 env fuel 0x01 s

/-- `HD44780_clear` (hd44780.c:201-204). -/
def HD44780_clear (m8 : Bool) (env : Nat → Bool) (fuel : Nat) (s : Lcd) : Option Lcd :=
  __writeInstrReg m8 env fuel 0x01 s

/-- `HD44780_printChar` (hd44780.c:206-231) on a `uint8_t` character; the
newline is 10 and the carriage return 13. -/
def HD44780_printChar (m8 : Bool) (env : Nat → Bool) (fuel : Nat) (c : Nat)
    (_blocking : Bool) (s : Lcd) : Option (Bool × Lcd) :=
  if c = 10 then
    match __writeInstrReg m8 env fuel 0xC0 s with
    | none => none
    | some s => some (true, s)
  else if c = 13 then
    some (true, s)
  else
    match __wait m8 env fuel s with
    | none => none
    | some s =>
      let s := __setDataValue m8 c s
      let s := __selDataReg s
      let s := __pulseEn s
      let s :=
        if m8 then s
        else
          let s := __setDataValue m8 (Fat.toU8 (c <<< 4)) s
          __pulseEn s
      let r := __readInstrReg m8 env s
      if r.1 &&& 0x7f = 16 then
        match __writeInstrReg m8 env fuel 0xC0 r.2 with
        | none => none
        | some s => some (true, s)
      else some (true, r.2)

/-- `HD44780_setCursor` (hd44780.c:233-236); the sum is converted to the
`uint8_t` parameter of `__writeInstrReg`. -/
def HD44780_setCursor (m8 : Bool) (env : Nat → Bool) (fuel : Nat) (col row : Nat)
    (s : Lcd) : Option Lcd :=
  __writeInstrReg m8 env fuel (Fat.toU8 (0x80 + (if row ≠ 0 then 0x40 else 0) + col)) s

/-- A byte the driver put on the data lines at a falling edge of EN, with the
levels of RS and RW at that edge. -/
structure Xfer where
  rs : Bool
  rw : Bool
  data : Nat
  deriving DecidableEq

/-- The byte on the data lines: the levels of D7..D4, and of D3..D0 in 8-bit
mode, weighted as `__readDataValue` weights them. -/
def busValue (m8 : Bool) (v : Pins) : Nat :=
  (if v.d7 then 0x80 else 0) + (if v.d6 then 0x40 else 0) +
  (if v.d5 then 0x20 else 0) + (if v.d4 then 0x10 else 0) +
  (if m8 then
    (if v.d3 then 0x8 else 0) + (if v.d2 then 0x4 else 0) +
    (if v.d1 then 0x2 else 0) + (if v.d0 then 0x1 else 0)
  else 0)

/-- The driver drives the data lines at this edge: D7..D4 are outputs. -/
def Edge.driven (e : Edge) : Bool :=
  e.output.d7 && e.output.d6 && e.output.d5 && e.output.d4

/-- What the driver sent: the falling edges of EN at which it drove the data
lines, each with RS, RW and the byte on the lines. Edges at which the data
pins are inputs (busy polling and register reads) are left out. -/
def sent (m8 : Bool) (edges : List Edge) : List Xfer :=
  edges.filterMap fun e =>
    if e.driven then some ⟨e.value.rs, e.value.rw, busValue m8 e.value⟩ else none

/-- The write cycles of one instruction byte: a single cycle in 8-bit mode,
the high nibble then the low nibble on D7..D4 in 4-bit mode; RS and RW low. -/
def instrWrite (m8 : Bool) (instr : Nat) : List Xfer :=
  if m8 then [⟨false, false, instr⟩]
  else [⟨false, false, instr &&& 0xF0⟩, ⟨false, false, (instr <<< 4) &&& 0xF0⟩]

/-- The write cycles of one data-register byte: as `instrWrite` with RS high. -/
def dataWrite (m8 : Bool) (c : Nat) : List Xfer :=
  if m8 then [⟨true, false, c⟩]
  else [⟨true, false, c &&& 0xF0⟩, ⟨true, false, (c <<< 4) &&& 0xF0⟩]

/-- The byte `__readInstrReg` assembles from the levels the device shows from
read number `k` on: eight levels, most significant first (in 4-bit mode two
groups of four). -/
def readByte (env : Nat → Bool) (k : Nat) : Nat :=
  (if env k then 0x80 else 0) + (if env (k + 1) then 0x40 else 0) +
  (if env (k + 2) then 0x20 else 0) + (if env (k + 3) then 0x10 else 0) +
  (if env (k + 4) then 0x8 else 0) + (if env (k + 5) then 0x4 else 0) +
  (if env (k + 6) then 0x2 else 0) + (if env (k + 7) then 0x1 else 0)

/-- The pins with every level low, every pin an input, nothing read, no edge. -/
def Lcd.reset : Lcd :=
  { value := ⟨false, false, false, false, false, false, false, false, false, false, false⟩
    output := ⟨false, false, false, false, false, false, false, false, false, false, false⟩
    reads := 0
    edges := [] }

/-- A device that is never busy and shows low on every line. -/
def idleDevice : Nat → Bool := fun _ => false

/-- A device that shows high on every line at every read: its busy flag never
clears. -/
def busyDevice : Nat → Bool := fun _ => true

/-- A device that shows high only at read number 4 and low at every other read:
not busy at the first poll, and the register read that follows shows 0x10. -/
def wrapDevice : Nat → Bool := fun n => decide (n = 4)

end Hd44780

/-! ## Properties -/

set_option maxRecDepth 100000

namespace Fat

/-- C1: the boot-record offset constants equal the on-disk layout table
(bytes/sector 0x0B, sectors/cluster 0x0D, reserved sectors 0x0E, FAT copy
count 0x10, 16-bit FAT size 0x16, 32-bit total sectors 0x20, FAT32 FAT size
0x24, FAT32 root first cluster 0x2C), and with the layout's widths no two of
the ten fields (root entry count at 0x11 and 16-bit total sectors at 0x13
included) share a byte. -/
theorem bpb_offsets_match_layout :
    FAT_BPB_BYTES_PER_SECTOR = 0x0B ∧ FAT_BPB_SECTORS_PER_CLUSTER = 0x0D ∧
    FAT_BPB_RESERVED_SECTORS = 0x0E ∧ FAT_BPB_NR_OF_FATS = 0x10 ∧
    FAT_BPB_FAT_SZ_16 = 0x16 ∧ FAT_BPB_TOT_SEC_32 = 0x20 ∧
    FAT32_BPB_FAT_SZ_32 = 0x24 ∧ FAT32_BPB_ROOT_CLUST = 0x2C ∧
    bpbFields = [⟨0x0B, 2⟩, ⟨0x0D, 1⟩, ⟨0x0E, 2⟩, ⟨0x10, 1⟩, ⟨0x11, 2⟩, ⟨0x13, 2⟩,
      ⟨0x16, 2⟩, ⟨0x20, 4⟩, ⟨0x24, 4⟩, ⟨0x2C, 4⟩] ∧
    (∀ f ∈ bpbFields, ∀ g ∈ bpbFields, f ≠ g →
      f.stop ≤ g.offset ∨ g.stop ≤ f.offset) := by
  refine ⟨rfl, rfl, rfl, rfl, rfl, rfl, rfl, rfl, rfl, ?_⟩
  decide

/-- C2 (as stated, refuted): the offsets obtained from the constants for the
first partition entry are not 0x1BE for the type, 0x1C2 for the LBA start and
0x1C4 for the size. -/
theorem mbr_offsets_not_as_tabulated :
    ¬ (mbrFieldOffset FAT_MBR_PARTITION_TYPE = 0x1BE ∧
       mbrFieldOffset FAT_MBR_PARTITION_START = 0x1C2 ∧
       mbrFieldOffset FAT_MBR_PARTITION_SIZE = 0x1C4) := by
  decide

/-- C2 (amended): the first partition entry starts at 0x1BE, and the offsets
obtained from the constants are 0x1C2 for the partition type (1 byte), 0x1C6
for the LBA start (4 bytes) and 0x1CA for the size in sectors (4 bytes); the
three fields share no byte and lie within the 16-byte entry. -/
theorem mbr_offsets_from_constants :
    FAT_MBR_PARTITION_ENTRY_OFFSET = 0x1BE ∧
    mbrFieldOffset FAT_MBR_PARTITION_TYPE = 0x1C2 ∧
    mbrFieldOffset FAT_MBR_PARTITION_START = 0x1C6 ∧
    mbrFieldOffset FAT_MBR_PARTITION_SIZE = 0x1CA ∧
    mbrFields = [⟨0x1C2, 1⟩, ⟨0x1C6, 4⟩, ⟨0x1CA, 4⟩] ∧
    (∀ f ∈ mbrFields, ∀ g ∈ mbrFields, f ≠ g →
      f.stop ≤ g.offset ∨ g.stop ≤ f.offset) ∧
    (∀ f ∈ mbrFields, FAT_MBR_PARTITION_ENTRY_OFFSET ≤ f.offset ∧
      f.stop ≤ FAT_MBR_PARTITION_ENTRY_OFFSET + 16) := by
  refine ⟨rfl, rfl, rfl, rfl, rfl, ?_, ?_⟩ <;> decide

/-- C3: the short directory entry is exactly 32 bytes: the twelve fields at the
`FAT_DIR_*` offsets, with widths 11, 1, 1, 1, 2, 2, 2, 2, 2, 2, 2, 4, start at
byte 0, each starts where the previous one ends, and the last one ends at byte
32; attributes are at 0x0B, first-cluster-low at 0x1A, file size at 0x1C. -/
theorem dir_entry_is_32_bytes :
    dirFields = [⟨0, 11⟩, ⟨11, 1⟩, ⟨12, 1⟩, ⟨13, 1⟩, ⟨14, 2⟩, ⟨16, 2⟩, ⟨18, 2⟩,
      ⟨20, 2⟩, ⟨22, 2⟩, ⟨24, 2⟩, ⟨26, 2⟩, ⟨28, 4⟩] ∧
    dirFields.head?.map Field.offset = some 0 ∧
    List.Chain' (fun f g => f.stop = g.offset) dirFields ∧
    dirFields.map Field.stop = dirFields.tail.map Field.offset ++ [FAT_DIR_ENTRY_SIZE] ∧
    dirFields.getLast?.map Field.stop = some 32 ∧
    (dirFields.map Field.width).sum = 32 ∧
    FAT_DIR_ENTRY_SIZE = 32 ∧
    FAT_DIR_ATTR = 0x0B ∧ FAT_DIR_FIRST_CLUS_LOW = 0x1A ∧ FAT_DIR_FILE_SIZE = 0x1C := by
  refine ⟨rfl, rfl, ?_, rfl, rfl, rfl, rfl, rfl, rfl, rfl⟩
  simp [dirFields, Field.stop, FAT_DIR_NAME, FAT_DIR_ATTR, FAT_DIR_NT_RES,
    FAT_DIR_CREAT_TIME_MILLIS, FAT_DIR_CREAT_TIME, FAT_DIR_CREAT_DATE,
    FAT_DIR_LAST_ACC_DATE, FAT_DIR_FIRST_CLUS_HIGH, FAT_DIR_WRITE_TIME,
    FAT_DIR_WRITE_DATE, FAT_DIR_FIRST_CLUS_LOW, FAT_DIR_FILE_SIZE]

/-- The long-name test on every byte value, checked by enumeration. -/
theorem long_name_test_bytes :
    ∀ a : Nat, a < 256 →
      ((a &&& FAT_FILE_ATTR_LONG_NAME_MASK = FAT_FILE_ATTR_LONG_NAME) ↔ a % 64 = 0x0F) ∧
      (a &&& FAT_FILE_ATTR_DIRECTORY ≠ 0 ∨ a &&& FAT_FILE_ATTR_ARCHIVE ≠ 0 →
        a &&& FAT_FILE_ATTR_LONG_NAME_MASK ≠ FAT_FILE_ATTR_LONG_NAME) ∧
      (a &&& FAT_FILE_ATTR_LONG_NAME ≠ FAT_FILE_ATTR_LONG_NAME →
        a &&& FAT_FILE_ATTR_LONG_NAME_MASK ≠ FAT_FILE_ATTR_LONG_NAME) := by
  decide

/-- C4: `FAT_FILE_ATTR_LONG_NAME` is READ_ONLY|HIDDEN|SYSTEM|VOLUME_ID = 0x0F,
`FAT_FILE_ATTR_LONG_NAME_MASK` is 0x3F, and for every attribute byte `a` the
test `(a & FAT_FILE_ATTR_LONG_NAME_MASK) == FAT_FILE_ATTR_LONG_NAME` holds iff
the low six bits of `a` are 0x0F; a byte with the directory or archive bit
set, or one that lacks any of the four long-name bits (a volume label 0x08 for
instance), fails the test. -/
theorem long_name_attr_test (a : Nat) (ha : a < 256) :
    FAT_FILE_ATTR_LONG_NAME =
      (FAT_FILE_ATTR_READ_ONLY ||| FAT_FILE_ATTR_HIDDEN ||| FAT_FILE_ATTR_SYSTEM |||
        FAT_FILE_ATTR_VOLUME_ID) ∧
    FAT_FILE_ATTR_LONG_NAME = 0x0F ∧
    FAT_FILE_ATTR_LONG_NAME_MASK = 0x3F ∧
    ((a &&& FAT_FILE_ATTR_LONG_NAME_MASK = FAT_FILE_ATTR_LONG_NAME) ↔ a % 64 = 0x0F) ∧
    (a &&& FAT_FILE_ATTR_DIRECTORY ≠ 0 ∨ a &&& FAT_FILE_ATTR_ARCHIVE ≠ 0 →
      a &&& FAT_FILE_ATTR_LONG_NAME_MASK ≠ FAT_FILE_ATTR_LONG_NAME) ∧
    (a &&& FAT_FILE_ATTR_LONG_NAME ≠ FAT_FILE_ATTR_LONG_NAME →
      a &&& FAT_FILE_ATTR_LONG_NAME_MASK ≠ FAT_FILE_ATTR_LONG_NAME) ∧
    FAT_FILE_ATTR_VOLUME_ID &&& FAT_FILE_ATTR_LONG_NAME_MASK ≠ FAT_FILE_ATTR_LONG_NAME := by
  obtain ⟨h1, h2, h3⟩ := long_name_test_bytes a ha
  exact ⟨rfl, by decide, by decide, h1, h2, h3, by decide⟩

/-- C4 at the byte 0x0F: it passes the long-name test. -/
theorem long_name_attr_test_witness :
    (0x0F : Nat) < 256 ∧
    (0x0F : Nat) &&& FAT_FILE_ATTR_LONG_NAME_MASK = FAT_FILE_ATTR_LONG_NAME :=
  ⟨by decide, (long_name_attr_test 0x0F (by decide)).2.2.2.1.mpr (by decide)⟩

/-- C5 (as stated, refuted): for the order byte 0x80 the top bit is set but
`FAT_LAST_LONG_ENTRY_MASK` selects nothing, so the mask is not bit 7. -/
theorem last_long_entry_mask_not_top_bit :
    ¬ (((0x80 : Nat) &&& FAT_LAST_LONG_ENTRY_MASK ≠ 0) ↔ Nat.testBit 0x80 7 = true) := by
  decide

/-- C5 (amended): the order byte is at entry offset 0 and
`FAT_LAST_LONG_ENTRY_MASK` is 0x40, bit 6: for every order byte `b`,
`(b & FAT_LAST_LONG_ENTRY_MASK) != 0` iff bit 6 of `b` is set. -/
theorem last_long_entry_mask_is_bit6 (b : Nat) :
    FAT_LONG_DIR_ORDER = 0 ∧ FAT_LAST_LONG_ENTRY_MASK = 0x40 ∧
    ((b &&& FAT_LAST_LONG_ENTRY_MASK ≠ 0) ↔ b.testBit 6 = true) := by
  refine ⟨rfl, rfl, ?_⟩
  have hm : FAT_LAST_LONG_ENTRY_MASK = 2 ^ 6 := rfl
  rw [hm, Nat.and_two_pow]
  cases b.testBit 6 <;> simp

/-- C6: one 32-byte LFN entry holds exactly `FAT_LFN_MAX_CHARS` = 13 two-byte
characters: the name fields start at 1, 14 and 28 and run up to the attribute
byte (11), the cluster field (26) and the end of the entry (32), giving
5 + 6 + 2 characters, and they share no byte with the order, attribute, type,
checksum (at 0x0D) or cluster fields. -/
theorem lfn_entry_holds_13_chars :
    FAT_LFN_MAX_CHARS = 13 ∧
    lfnNameFields = [⟨1, 10⟩, ⟨14, 12⟩, ⟨28, 4⟩] ∧
    lfnNameFields.map Field.stop =
      [FAT_LONG_DIR_ATTR, FAT_LONG_DIR_FIRST_CLST_LOW, FAT_DIR_ENTRY_SIZE] ∧
    lfnNameFields.map lfnFieldChars = [5, 6, 2] ∧
    (lfnNameFields.map lfnFieldChars).sum = FAT_LFN_MAX_CHARS ∧
    lfnOtherFields = [⟨0, 1⟩, ⟨11, 1⟩, ⟨12, 1⟩, ⟨0x0D, 1⟩, ⟨26, 2⟩] ∧
    (∀ f ∈ lfnNameFields, ∀ g ∈ lfnOtherFields,
      f.stop ≤ g.offset ∨ g.stop ≤ f.offset) ∧
    (∀ f ∈ lfnNameFields, ∀ g ∈ lfnNameFields, f ≠ g →
      f.stop ≤ g.offset ∨ g.stop ≤ f.offset) := by
  refine ⟨rfl, rfl, rfl, rfl, rfl, rfl, ?_, ?_⟩ <;> decide

/-- C7: for `fs_type` FS_FAT16 or FS_FAT32, `1 << fs_type` is the entry
width in bytes documented for `FAT.FATDataSize` (2 and 4), and for every
cluster number `c` below 2^28 the 32-bit shift `c << fs_type` equals
`c * (1 << fs_type)`, which stays below 2^32; FS_FAT12 and FS_EXFAT give the
widths 1 and 8, neither 2 nor 4. -/
theorem fs_type_shift_is_entry_width (fs_type c : Nat)
    (hfs : fs_type = FS_FAT16 ∨ fs_type = FS_FAT32) (hc : c < 2 ^ 28) :
    FS_FAT16 = 1 ∧ FS_FAT32 = 2 ∧
    fatDataSize fs_type = some (shl32 1 fs_type) ∧
    fatDataSize FS_FAT16 = some 2 ∧ fatDataSize FS_FAT32 = some 4 ∧
    shl32 c fs_type = c * shl32 1 fs_type ∧
    c * shl32 1 fs_type < 2 ^ 32 ∧
    shl32 1 FS_FAT12 = 1 ∧ shl32 1 FS_EXFAT = 8 ∧
    fatDataSize FS_FAT12 = none ∧ fatDataSize FS_EXFAT = none := by
  have h16 : shl32 c FS_FAT16 = c * 2 := by
    simp only [shl32, FS_FAT16, Nat.shiftLeft_eq]
    omega
  have h32 : shl32 c FS_FAT32 = c * 4 := by
    simp only [shl32, FS_FAT32, Nat.shiftLeft_eq]
    omega
  have w16 : shl32 1 FS_FAT16 = 2 := by decide
  have w32 : shl32 1 FS_FAT32 = 4 := by decide
  refine ⟨rfl, rfl, ?_, by decide, by decide, ?_, ?_, by decide, by decide,
    by decide, by decide⟩
  · rcases hfs with h | h <;> subst h <;> decide
  · rcases hfs with h | h <;> subst h
    · rw [h16, w16]
    · rw [h32, w32]
  · rcases hfs with h | h <;> subst h
    · rw [w16]; omega
    · rw [w32]; omega

/-- C7 at the largest FAT32 cluster number below 2^28: the shift gives the
byte offset 4 * (2^28 - 1) without wrapping. -/
theorem fs_type_shift_is_entry_width_witness :
    (FS_FAT32 = FS_FAT16 ∨ FS_FAT32 = FS_FAT32) ∧ 2 ^ 28 - 1 < 2 ^ 28 ∧
    shl32 (2 ^ 28 - 1) FS_FAT32 = (2 ^ 28 - 1) * shl32 1 FS_FAT32 :=
  ⟨Or.inr rfl, by decide,
    (fs_type_shift_is_entry_width FS_FAT32 (2 ^ 28 - 1) (Or.inr rfl) (by decide)).2.2.2.2.2.1⟩

/-- C8: each FAT32 sentinel (free, bad, end-of-file, max cluster) is unchanged
by the read mask that clears the top 4 bits of a 32-bit entry, and each FAT16
sentinel (free, bad, end-of-file) fits in a 2-byte entry. -/
theorem sentinels_survive_masking :
    FAT32_FREE_CLUSTER &&& fat32ReadMask = FAT32_FREE_CLUSTER ∧
    FAT32_BAD_CLUSTER &&& fat32ReadMask = FAT32_BAD_CLUSTER ∧
    FAT32_EOF_CLUSTER &&& fat32ReadMask = FAT32_EOF_CLUSTER ∧
    FAT32_MAX_CLUSTER &&& fat32ReadMask = FAT32_MAX_CLUSTER ∧
    FAT16_FREE_CLUSTER ≤ fat16EntryMax ∧
    FAT16_BAD_CLUSTER ≤ fat16EntryMax ∧
    FAT16_EOF_CLUSTER ≤ fat16EntryMax ∧
    fat16EntryMax = 0xFFFF := by
  decide

/-- C9: the result-code enumerations hold the documented codes in the
documented order: `FAT_MOUNT_RESULT` has the 7 values 0..6 and `FAT_FRESULT`
the 13 values 0..12, every enumerator is listed, the values within each
enumeration are pairwise distinct, and only `MR_OK` / `FR_OK` is zero. -/
theorem result_codes_as_documented :
    enumValues FAT_MOUNT_RESULT.decl =
      [ (.MR_OK, 0), (.MR_DEVICE_INIT_FAIL, 1), (.MR_ERR, 2), (.MR_NO_PARTITION, 3),
        (.MR_FAT_ERR, 4), (.MR_UNSUPPORTED_FS, 5), (.MR_UNSUPPORTED_BS, 6) ] ∧
    (enumValues FAT_MOUNT_RESULT.decl).length = 7 ∧
    (∀ r : FAT_MOUNT_RESULT, ∃ v, r.val = some v) ∧
    (∀ r r2 : FAT_MOUNT_RESULT, r.val = r2.val → r = r2) ∧
    (∀ r : FAT_MOUNT_RESULT, r.val = some 0 ↔ r = .MR_OK) ∧
    enumValues FAT_FRESULT.decl =
      [ (.FR_OK, 0), (.FR_EOF, 1), (.FR_NOT_FOUND, 2), (.FR_NO_PATH, 3),
        (.FR_NO_SPACE, 4), (.FR_EXIST, 5), (.FR_INCORRECT_ENTRY, 6), (.FR_DENIED, 7),
        (.FR_PATH_LENGTH_EXCEEDED, 8), (.FR_NOT_A_DIRECTORY, 9), (.FR_ROOT_DIR, 10),
        (.FR_INDEX_OUT_OF_RANGE, 11), (.FR_DEVICE_ERR, 12) ] ∧
    (enumValues FAT_FRESULT.decl).length = 13 ∧
    (∀ r : FAT_FRESULT, ∃ v, r.val = some v) ∧
    (∀ r r2 : FAT_FRESULT, r.val = r2.val → r = r2) ∧
    (∀ r : FAT_FRESULT, r.val = some 0 ↔ r = .FR_OK) := by
  refine ⟨rfl, rfl, ?_, ?_, ?_, rfl, rfl, ?_, ?_, ?_⟩
  · intro r; cases r <;> exact ⟨_, rfl⟩
  · intro r r2; cases r <;> cases r2 <;> decide
  · intro r; cases r <;> decide
  · intro r; cases r <;> exact ⟨_, rfl⟩
  · intro r r2; cases r <;> cases r2 <;> decide
  · intro r; cases r <;> decide

/-- C10: for two boot records with a supported sector size and non-zero
sectors per cluster, the mount's outcome follows from the count of clusters
`n` alone: `n < 4085` fails with `MR_UNSUPPORTED_FS`; `4085 <= n < 65525`
mounts with `fs_type = FS_FAT16`; `n >= 65525` mounts with
`fs_type = FS_FAT32`; and two volumes with the same count of clusters get the
same result code and the same `fs_type`. -/
theorem mount_classifies_by_cluster_count (part part2 : Nat) (b b2 : BootRecord)
    (hbs : b.BytsPerSec = supportedSectorSize) (hspc : b.SecPerClus ≠ 0)
    (hbs2 : b2.BytsPerSec = supportedSectorSize) (hspc2 : b2.SecPerClus ≠ 0) :
    (countOfClusters b < 4085 →
      (FAT_mountVolume part b).1 = .MR_UNSUPPORTED_FS) ∧
    (4085 ≤ countOfClusters b → countOfClusters b < 65525 →
      (FAT_mountVolume part b).1 = .MR_OK ∧
      (FAT_mountVolume part b).2.fs_type = FS_FAT16) ∧
    (65525 ≤ countOfClusters b →
      (FAT_mountVolume part b).1 = .MR_OK ∧
      (FAT_mountVolume part b).2.fs_type = FS_FAT32) ∧
    (countOfClusters b = countOfClusters b2 →
      (FAT_mountVolume part b).1 = (FAT_mountVolume part2 b2).1 ∧
      (FAT_mountVolume part b).2.fs_type = (FAT_mountVolume part2 b2).2.fs_type) := by
  have key : ∀ (p : Nat) (r : BootRecord), r.BytsPerSec = supportedSectorSize →
      r.SecPerClus ≠ 0 →
      (FAT_mountVolume p r).1 =
        (match classifyVariant (countOfClusters r) with
          | none => FAT_MOUNT_RESULT.MR_UNSUPPORTED_FS
          | some _ => FAT_MOUNT_RESULT.MR_OK) ∧
      (FAT_mountVolume p r).2.fs_type =
        (match classifyVariant (countOfClusters r) with
          | none => 0
          | some t => t) := by
    intro p r h1 h2
    unfold FAT_mountVolume
    rw [if_neg (not_not.mpr h1), if_neg h2]
    cases classifyVariant (countOfClusters r) <;> exact ⟨rfl, rfl⟩
  obtain ⟨k1, k2⟩ := key part b hbs hspc
  obtain ⟨k3, k4⟩ := key part2 b2 hbs2 hspc2
  refine ⟨?_, ?_, ?_, ?_⟩
  · intro h
    rw [k1]; simp [classifyVariant, h]
  · intro h1 h2
    have h1n : ¬ countOfClusters b < 4085 := by omega
    rw [k1, k2]; simp [classifyVariant, h1n, h2]
  · intro h
    have h1n : ¬ countOfClusters b < 4085 := by omega
    have h2n : ¬ countOfClusters b < 65525 := by omega
    rw [k1, k2]; simp [classifyVariant, h1n, h2n]
  · intro h
    rw [k1, k2, k3, k4, h]
    exact ⟨rfl, rfl⟩

/-- C10 at two concrete FAT16 volumes of different geometry and 8192 clusters
each: both mount as FS_FAT16. -/
theorem mount_classifies_by_cluster_count_witness :
    countOfClusters sampleFat16 = 8192 ∧ countOfClusters sampleFat16Small = 8192 ∧
    (FAT_mountVolume 0 sampleFat16).2.fs_type = FS_FAT16 ∧
    (FAT_mountVolume 0 sampleFat16).2.fs_type =
      (FAT_mountVolume 63 sampleFat16Small).2.fs_type :=
  ⟨by decide, by decide,
    ((mount_classifies_by_cluster_count 0 63 sampleFat16 sampleFat16Small
      (by decide) (by decide) (by decide) (by decide)).2.1 (by decide) (by decide)).2,
    ((mount_classifies_by_cluster_count 0 63 sampleFat16 sampleFat16Small
      (by decide) (by decide) (by decide) (by decide)).2.2.2 (by decide)).2⟩

/-- C11 (the code at a FAT32 volume of about 34 GB): the volume mounts as
FAT32, its total sector count fits 32 bits, the second FAT starts at sector
65568 and the data region at sector 131104, but the 16-bit members
`Fat2StartSector` and `FirstDataSector` both hold 32. -/
theorem large_fat32_geometry_truncated :
    totalSectors sampleFat32Large < 2 ^ 32 ∧
    countOfClusters sampleFat32Large = 8388606 ∧
    (FAT_mountVolume 0 sampleFat32Large).1 = .MR_OK ∧
    (FAT_mountVolume 0 sampleFat32Large).2.fs_type = FS_FAT32 ∧
    (FAT_mountVolume 0 sampleFat32Large).2.FATSz = 65536 ∧
    rootDirSectors sampleFat32Large = 0 ∧
    sampleFat32Large.RsvdSecCnt + fatSize sampleFat32Large = 65568 ∧
    (FAT_mountVolume 0 sampleFat32Large).2.Fat2StartSector = 32 ∧
    sampleFat32Large.RsvdSecCnt + sampleFat32Large.NumFATs * fatSize sampleFat32Large
      = 131104 ∧
    firstDataSector sampleFat32Large = 131104 ∧
    (FAT_mountVolume 0 sampleFat32Large).2.FirstDataSector = 32 := by
  decide

/-- C12 (as stated, refuted): the byte offset of entry 8 of a sector, 256, is
not representable in `FAT_FILE.entry_offset` nor in `FAT_DIR.dir_entry_offset`;
stored there it becomes 0, the stored offset of entry 0. -/
theorem entry_byte_offset_8_not_representable :
    entryByteOffset 8 = 256 ∧
    (FAT_FILE.zero.set_entry_offset (entryByteOffset 8)).entry_offset ≠ entryByteOffset 8 ∧
    (FAT_DIR.zero.set_dir_entry_offset (entryByteOffset 8)).dir_entry_offset
      ≠ entryByteOffset 8 ∧
    (FAT_FILE.zero.set_entry_offset (entryByteOffset 8)).entry_offset =
      (FAT_FILE.zero.set_entry_offset (entryByteOffset 0)).entry_offset ∧
    (FAT_DIR.zero.set_dir_entry_offset (entryByteOffset 8)).dir_entry_offset =
      (FAT_DIR.zero.set_dir_entry_offset (entryByteOffset 0)).dir_entry_offset := by
  decide

/-- C12 (amended): a 512-byte sector holds 512 / 32 = 16 entries (the value
documented for `entries_per_sector`, fat.h:288-290);
for every entry index `k` below 16 and every file handle and directory cursor,
the index `k` is stored unchanged in `entry_offset` and `dir_entry_offset`,
two entries with the same stored index are the same entry, and the byte offset
`32 * k` is stored unchanged exactly when `k` is below 8. -/
theorem entry_index_representable (fp : FAT_FILE) (d : FAT_DIR) (k j : Nat)
    (hk : k < 16) (hj : j < 16) :
    512 / FAT_DIR_ENTRY_SIZE = 16 ∧
    (fp.set_entry_offset k).entry_offset = k ∧
    (d.set_dir_entry_offset k).dir_entry_offset = k ∧
    ((fp.set_entry_offset k).entry_offset = (fp.set_entry_offset j).entry_offset →
      k = j) ∧
    ((d.set_dir_entry_offset k).dir_entry_offset =
      (d.set_dir_entry_offset j).dir_entry_offset → k = j) ∧
    ((fp.set_entry_offset (entryByteOffset k)).entry_offset = entryByteOffset k ↔ k < 8) ∧
    ((d.set_dir_entry_offset (entryByteOffset k)).dir_entry_offset = entryByteOffset k
      ↔ k < 8) := by
  have e : ∀ n, entryByteOffset n = 32 * n := fun _ => rfl
  simp only [FAT_FILE.set_entry_offset, FAT_DIR.set_dir_entry_offset, toU8, e]
  refine ⟨by decide, ?_, ?_, ?_, ?_, ?_, ?_⟩ <;> omega

/-- C12 (amended) at the last entry of a sector, index 15: the index is stored
unchanged in a file handle. -/
theorem entry_index_representable_witness :
    (15 : Nat) < 16 ∧ (FAT_FILE.zero.set_entry_offset 15).entry_offset = 15 :=
  ⟨by decide,
    (entry_index_representable FAT_FILE.zero FAT_DIR.zero 15 0 (by decide) (by decide)).2.1⟩

end Fat

namespace Model

/-- The fill loop keeps the length of the array. -/
theorem length_fillLoop {α : Type} (x : α) :
    ∀ (k i : Nat) (h : List α), (fillLoop x k i h).length = h.length := by
  intro k
  induction k with
  | zero => intro i h; rfl
  | succ k ih => intro i h; simp [fillLoop, ih]

/-- The fill loop writes `x` into the `k` cells from index `i` on and leaves
the others. -/
theorem getElem?_fillLoop {α : Type} (x : α) :
    ∀ (k i : Nat) (h : List α) (j : Nat),
      (fillLoop x k i h)[j]? =
        if i ≤ j ∧ j < i + k ∧ j < h.length then some x else h[j]? := by
  intro k
  induction k with
  | zero =>
    intro i h j
    have c : ¬ (i ≤ j ∧ j < i + 0 ∧ j < h.length) := by omega
    rw [if_neg c]
    rfl
  | succ k ih =>
    intro i h j
    simp only [fillLoop, ih, List.length_set, List.getElem?_set]
    by_cases hj : j < h.length
    · by_cases hij : i = j
      · subst hij
        have c2 : i ≤ i ∧ i < i + (k + 1) ∧ i < h.length := by omega
        have c1 : ¬ (i + 1 ≤ i ∧ i < i + 1 + k ∧ i < h.length) := by omega
        simp [hj, c1, c2]
      · by_cases c1 : i + 1 ≤ j ∧ j < i + 1 + k ∧ j < h.length
        · have c2 : i ≤ j ∧ j < i + (k + 1) ∧ j < h.length := by omega
          simp [c1, c2]
        · have c2 : ¬ (i ≤ j ∧ j < i + (k + 1) ∧ j < h.length) := by omega
          simp [c1, c2, hij]
    · have c1 : ¬ (i + 1 ≤ j ∧ j < i + 1 + k ∧ j < h.length) := by omega
      have c2 : ¬ (i ≤ j ∧ j < i + (k + 1) ∧ j < h.length) := by omega
      have hn : h[j]? = none := List.getElem?_eq_none (by omega)
      simp [c1, c2, hn]
      intro hij; subst hij; omega

/-- Filling a whole array gives the constant array. -/
theorem fillLoop_all {α : Type} (x z : α) (n : Nat) :
    fillLoop x n 0 (List.replicate n z) = List.replicate n x := by
  apply List.ext_getElem?
  intro j
  rw [getElem?_fillLoop]
  simp only [List.length_replicate, List.getElem?_replicate]
  by_cases hj : j < n
  · simp [hj]
  · simp [hj]

/-- The shift loop, run inside the array, moves the `k` cells after index `i`
one place down and keeps the length. -/
theorem shiftLoop_spec {α : Type} :
    ∀ (k i : Nat) (h : List α), i + k < h.length →
      ∃ h2, shiftLoop k i h = some h2 ∧ h2.length = h.length ∧
        ∀ j, h2[j]? = if i ≤ j ∧ j < i + k then h[j + 1]? else h[j]? := by
  intro k
  induction k with
  | zero =>
    intro i h _
    refine ⟨h, rfl, rfl, ?_⟩
    intro j
    have c : ¬ (i ≤ j ∧ j < i + 0) := by omega
    rw [if_neg c]
  | succ k ih =>
    intro i h hlen
    have hv : h[i + 1]? = some (h[i + 1]) := List.getElem?_eq_getElem (by omega)
    obtain ⟨h2, e2, l2, g2⟩ := ih (i + 1) (h.set i h[i + 1]) (by simp; omega)
    refine ⟨h2, ?_, ?_, ?_⟩
    · simp only [shiftLoop, hv]
      exact e2
    · simpa using l2
    · intro j
      rw [g2 j]
      simp only [List.getElem?_set]
      by_cases hij : i = j
      · subst hij
        have c1 : ¬ (i + 1 ≤ i ∧ i < i + 1 + k) := by omega
        have c2 : i ≤ i ∧ i < i + (k + 1) := by omega
        have hi : i < h.length := by omega
        simp [c1, c2, hi, hv]
      · by_cases c1 : i + 1 ≤ j ∧ j < i + 1 + k
        · have c2 : i ≤ j ∧ j < i + (k + 1) := by omega
          have hne : ¬ i = j + 1 := by omega
          simp [c1, c2, hne]
        · have c2 : ¬ (i ≤ j ∧ j < i + (k + 1)) := by omega
          simp [c1, c2, hij]

/-- On a state whose history holds `deadtime + 1` samples, `MODEL_update`
returns: the new history is the old one without its first sample, followed by
the new input; the output is computed from the first sample of the new history;
the gain, time constant and dead time are kept. -/
theorem MODEL_update_spec {α : Type} (ops : FixedPt α) (m : MODEL_t α) (u : α)
    (hlen : m.input_hist.length = m.deadtime + 1) :
    ∃ x, (m.input_hist ++ [u])[1]? = some x ∧
      MODEL_update ops m u =
        some (newOutput ops m.kp m.tau m.output x,
          { kp := m.kp, tau := m.tau, output := newOutput ops m.kp m.tau m.output x,
            deadtime := m.deadtime, input_hist := (m.input_hist ++ [u]).drop 1 }) := by
  obtain ⟨h2, e2, l2, g2⟩ := shiftLoop_spec m.deadtime 0 m.input_hist (by omega)
  have hset : h2.set m.deadtime u = (m.input_hist ++ [u]).drop 1 := by
    apply List.ext_getElem?
    intro j
    rw [List.getElem?_set, g2 j, List.getElem?_drop, List.getElem?_append, l2, hlen]
    by_cases hj : j < m.deadtime
    · have c : 0 ≤ j ∧ j < 0 + m.deadtime := by omega
      have hne : ¬ m.deadtime = j := by omega
      have hlt : 1 + j < m.deadtime + 1 := by omega
      simp [c, hne, hlt, hj, Nat.add_comm]
    · by_cases hj2 : j = m.deadtime
      · subst hj2
        have hlt : ¬ (1 + m.deadtime < m.deadtime + 1) := by omega
        have he : 1 + m.deadtime - (m.deadtime + 1) = 0 := by omega
        simp [hlt, he]
      · have c : ¬ (0 ≤ j ∧ j < 0 + m.deadtime) := by omega
        have hne : ¬ m.deadtime = j := by omega
        have hlt : ¬ (1 + j < m.deadtime + 1) := by omega
        have hn : m.input_hist[j]? = none := List.getElem?_eq_none (by omega)
        have hn2 : [u][1 + j - (m.deadtime + 1)]? = none :=
          List.getElem?_eq_none (by simp; omega)
        simp [c, hne, hlt, hn, hn2, hj]
  have hx : ∃ x, (m.input_hist ++ [u])[1]? = some x :=
    ⟨_, List.getElem?_eq_getElem (by simp; omega)⟩
  obtain ⟨x, hx⟩ := hx
  refine ⟨x, hx, ?_⟩
  have h0 : (h2.set m.deadtime u)[0]? = some x := by
    rw [hset, List.getElem?_drop]; simpa using hx
  unfold MODEL_update
  simp only [e2]
  rw [if_pos (by omega)]
  rw [hset] at h0
  simp only [hset, h0]

/-- Successive updates from a state whose history holds `deadtime + 1`
samples all return; the final history is the last `deadtime + 1` samples of
the old history followed by the inputs. -/
theorem MODEL_run_spec {α : Type} (ops : FixedPt α) :
    ∀ (us : List α) (m : MODEL_t α), m.input_hist.length = m.deadtime + 1 →
      ∃ m2, MODEL_run ops m us = some m2 ∧ m2.deadtime = m.deadtime ∧
        m2.kp = m.kp ∧ m2.tau = m.tau ∧
        m2.input_hist = (m.input_hist ++ us).drop us.length := by
  intro us
  induction us with
  | nil => intro m _; exact ⟨m, rfl, rfl, rfl, rfl, by simp⟩
  | cons u us ih =>
    intro m hlen
    obtain ⟨x, _, hu⟩ := MODEL_update_spec ops m u hlen
    obtain ⟨m2, e2, d2, k2, t2, h2⟩ := ih
      { kp := m.kp, tau := m.tau, output := newOutput ops m.kp m.tau m.output x,
        deadtime := m.deadtime, input_hist := (m.input_hist ++ [u]).drop 1 }
      (by simp; omega)
    refine ⟨m2, ?_, d2, k2, t2, ?_⟩
    · simp only [ MODEL_run, hu]
      exact e2
    · rw [h2]
      have h1 : (m.input_hist ++ [u]).drop 1 ++ us = (m.input_hist ++ [u] ++ us).drop 1 :=
        (List.drop_append_of_le_length (by simp)).symm
      simp only [h1, List.drop_drop, List.length_cons, List.append_assoc,
        List.singleton_append, Nat.add_comm]

/-- Reading the history after `us.length` steps: cell `i` holds the input
delayed by `d` steps at step `us.length + i`. -/
theorem getElem?_history {α : Type} (x0 : α) (us : List α) (d i : Nat) (hi : i ≤ d) :
    ((List.replicate (d + 1) x0 ++ us).drop us.length)[i]? =
      some (delayed x0 us d (us.length + i)) := by
  rw [List.getElem?_drop, List.getElem?_append, List.length_replicate]
  unfold delayed
  by_cases h : us.length + i ≤ d
  · have h1 : us.length + i < d + 1 := by omega
    simp [h, h1]
  · have h1 : ¬ (us.length + i < d + 1) := by omega
    have h2 : us.length + i - (d + 1) < us.length := by omega
    have h3 : us.length + i - d - 1 = us.length + i - (d + 1) := by omega
    simp only [h, h1, if_false, h3]
    rw [List.getElem?_eq_getElem h2, List.getD_eq_getElem _ _ h2]

/-- C14: with the fixed-point macros read as exact arithmetic, on every state
with `tau != 0` whose history holds `deadtime + 1` samples, `MODEL_update`
returns `kp * x / tau + (output * tau - 1) / tau`, which equals
`(kp / tau) * x + (output * 1 - 1 / tau)`, where `x` is `input_hist[0]` after
the shift; the returned value is the stored `output`, and `kp`, `tau` and
`deadtime` are unchanged. -/
theorem MODEL_update_exact_formula (m : MODEL_t ℚ) (u : ℚ) (htau : m.tau ≠ 0)
    (hlen : m.input_hist.length = m.deadtime + 1) :
    ∃ x out m2, MODEL_update exactOps m u = some (out, m2) ∧
      m2.input_hist[0]? = some x ∧
      (m.input_hist ++ [u])[1]? = some x ∧
      out = m.kp * x / m.tau + (m.output * m.tau - 1) / m.tau ∧
      out = (m.kp / m.tau) * x + (m.output * 1 - 1 / m.tau) ∧
      m2.output = out ∧ m2.kp = m.kp ∧ m2.tau = m.tau ∧ m2.deadtime = m.deadtime := by
  obtain ⟨x, hx, hu⟩ := MODEL_update_spec exactOps m u hlen
  refine ⟨x, _, _, hu, ?_, hx, ?_, ?_, rfl, rfl, rfl, rfl⟩
  · rw [List.getElem?_drop]; simpa using hx
  · simp [newOutput, exactOps]
  · simp only [newOutput, exactOps]
    field_simp

/-- C14 at a concrete state: gain 2, time constant 4, output 3, dead time 1,
history [5, 7], input 9; the oldest sample after the shift is 7 and the
output is 25/4. -/
theorem MODEL_update_exact_formula_witness :
    ∃ x out m2,
      MODEL_update exactOps
        { kp := 2, tau := 4, output := 3, deadtime := 1, input_hist := [5, 7] } 9
        = some (out, m2) ∧
      m2.input_hist[0]? = some x ∧
      (([5, 7] : List ℚ) ++ [9])[1]? = some x ∧
      out = 2 * x / 4 + (3 * 4 - 1) / 4 ∧
      out = (2 / 4) * x + (3 * 1 - 1 / 4) ∧
      m2.output = out ∧ m2.kp = 2 ∧ m2.tau = 4 ∧ m2.deadtime = 1 :=
  MODEL_update_exact_formula
    { kp := 2, tau := 4, output := 3, deadtime := 1, input_hist := [5, 7] } 9
    (by norm_num) rfl

/-- C15: after a successful `MODEL_init` with dead time `d` and initial input
`x0`, any sequence of `n` updates returns; the history keeps `d + 1` samples,
cell `i` holds the input of step `n - d + i` (`x0` when that step is not
positive), so cell 0 holds the input delayed by `d` steps, and the next update
computes its output from the input delayed by `d` steps. -/
theorem MODEL_update_is_pure_delay {α : Type} (ops : FixedPt α) (zero : α)
    (model : MODEL_t α) (init : MODEL_init_t α) (us : List α) :
    ∃ m, MODEL_run ops (MODEL_init true zero model init) us = some m ∧
      m.deadtime = init.deadtime ∧
      m.input_hist.length = init.deadtime + 1 ∧
      (∀ i, i ≤ init.deadtime →
        m.input_hist[i]? =
          some (delayed init.initial_input us init.deadtime (us.length + i))) ∧
      m.input_hist[0]? = some (delayed init.initial_input us init.deadtime us.length) ∧
      (init.deadtime = 0 → ∀ u, (MODEL_update ops m u).map (fun r => r.2.input_hist)
        = some [u]) ∧
      (∀ u, ∃ r, MODEL_update ops m u = some r ∧
        r.1 = newOutput ops m.kp m.tau m.output
          (delayed init.initial_input (us ++ [u]) init.deadtime (us.length + 1))) := by
  have hinit : (MODEL_init true zero model init).input_hist =
      List.replicate (init.deadtime + 1) init.initial_input := by
    simp [ MODEL_init, fillLoop_all]
  have hd : (MODEL_init true zero model init).deadtime = init.deadtime := rfl
  obtain ⟨m, e, d, _, _, h⟩ := MODEL_run_spec ops us (MODEL_init true zero model init)
    (by rw [hinit, hd]; simp)
  rw [hinit] at h
  rw [hd] at d
  have hl : m.input_hist.length = init.deadtime + 1 := by
    rw [h]; simp
  have hcell : ∀ i, i ≤ init.deadtime → m.input_hist[i]? =
      some (delayed init.initial_input us init.deadtime (us.length + i)) := by
    intro i hi
    rw [h]
    exact getElem?_history init.initial_input us init.deadtime i hi
  refine ⟨m, e, d, hl, hcell, by simpa using hcell 0 (Nat.zero_le _), ?_, ?_⟩
  · intro h0 u
    obtain ⟨x, _, hu⟩ := MODEL_update_spec ops m u (by rw [hl, d])
    rw [hu]
    have hl1 : m.input_hist.length = 1 := by rw [hl, h0]
    obtain ⟨a, ha⟩ := List.length_eq_one.mp hl1
    simp [ha]
  · intro u
    obtain ⟨x, hx, hu⟩ := MODEL_update_spec ops m u (by rw [hl, d])
    refine ⟨_, hu, ?_⟩
    have key : (m.input_hist ++ [u])[1]? =
        some (delayed init.initial_input (us ++ [u]) init.deadtime (us.length + 1)) := by
      have g := getElem?_history init.initial_input (us ++ [u]) init.deadtime 0
        (Nat.zero_le _)
      rw [List.getElem?_drop] at g
      have happ : (List.replicate (init.deadtime + 1) init.initial_input ++ us).drop us.length
          ++ [u] =
          (List.replicate (init.deadtime + 1) init.initial_input ++ us ++ [u]).drop us.length :=
        (List.drop_append_of_le_length (by simp)).symm
      rw [h, happ, List.getElem?_drop]
      simpa using g
    rw [hx] at key
    simp only [Option.some.injEq] at key
    simp only [key]

/-- C16: when the allocation fails `MODEL_init` returns the state with `kp`,
`tau`, `output` and `deadtime` overwritten and `input_hist` as it was; when it
succeeds `input_hist` is an array of `deadtime + 1` samples all equal to
`initial_input`, whatever it was before. -/
theorem MODEL_init_alloc_outcomes {α : Type} (zero : α) (model : MODEL_t α)
    (init : MODEL_init_t α) :
    MODEL_init false zero model init =
      { kp := init.kp, tau := init.tau, output := init.initial_output,
        deadtime := init.deadtime, input_hist := model.input_hist } ∧
    MODEL_init true zero model init =
      { kp := init.kp, tau := init.tau, output := init.initial_output,
        deadtime := init.deadtime,
        input_hist := List.replicate (init.deadtime + 1) init.initial_input } ∧
    (MODEL_init true zero model init).input_hist.length = init.deadtime + 1 ∧
    (∀ x ∈ (MODEL_init true zero model init).input_hist, x = init.initial_input) := by
  have h : MODEL_init true zero model init =
      { kp := init.kp, tau := init.tau, output := init.initial_output,
        deadtime := init.deadtime,
        input_hist := List.replicate (init.deadtime + 1) init.initial_input } := by
    simp [ MODEL_init, fillLoop_all]
  refine ⟨rfl, h, ?_, ?_⟩
  · rw [h]; simp
  · rw [h]
    intro x hx
    exact List.eq_of_mem_replicate hx

end Model

namespace Hd44780

/-- One pass of the busy-polling loop: `busy` is the level read, EN ends high,
the other levels and the directions are kept, one level has been read, and
nothing was sent as long as D7 is an input. -/
theorem waitBody_spec (m8 : Bool) (env : Nat → Bool) (s : Lcd) (h7 : s.output.d7 = false) :
    (waitBody m8 env s).1 = env s.reads ∧
    (waitBody m8 env s).2.value = { s.value with en := true } ∧
    (waitBody m8 env s).2.output = s.output ∧
    (waitBody m8 env s).2.reads = s.reads + 1 ∧
    sent m8 (waitBody m8 env s).2.edges = sent m8 s.edges := by
  cases m8 <;> cases hen : s.value.en <;>
    simp [waitBody, GPIO_setValueLow, GPIO_setValueHigh, GPIO_getInput, writePin, Pins.set,
      sent, Edge.driven, hen, h7]

/-- The busy-polling loop returns once the device shows "not busy" within the
allowed number of polls; EN ends high and nothing was sent. -/
theorem waitLoop_spec (m8 : Bool) (env : Nat → Bool) :
    ∀ (fuel : Nat) (s : Lcd), s.output.d7 = false →
      (∃ j, j < fuel ∧ env (s.reads + j) = false) →
      ∃ s2, waitLoop m8 env fuel s = some s2 ∧
        s2.value = { s.value with en := true } ∧ s2.output = s.output ∧
        sent m8 s2.edges = sent m8 s.edges := by
  intro fuel
  induction fuel with
  | zero => intro s _ ⟨j, hj, _⟩; omega
  | succ fuel ih =>
    intro s h7 ⟨j, hj, hfree⟩
    obtain ⟨b1, b2, b3, b4, b5⟩ := waitBody_spec m8 env s h7
    unfold waitLoop
    by_cases hb : env s.reads = true
    · have hj0 : j ≠ 0 := by
        intro h0; subst h0; simp [hb] at hfree
      obtain ⟨s2, e2, v2, o2, t2⟩ := ih (waitBody m8 env s).2 (by rw [b3]; exact h7)
        ⟨j - 1, by omega, by rw [b4]; rw [← hfree]; congr 1; omega⟩
      refine ⟨s2, ?_, ?_, ?_, ?_⟩
      · simp only [b1, hb, if_true]; exact e2
      · rw [v2, b2]
      · rw [o2, b3]
      · rw [t2, b5]
    · refine ⟨(waitBody m8 env s).2, ?_, b2, b3, b5⟩
      simp only [b1, hb]
      simp

/-- The byte seen on the data lines after `__setDataValue`. -/
theorem busValue_setDataValue (m8 : Bool) (val : Nat) (hv : val < 256) (s : Lcd) :
    busValue m8 (__setDataValue m8 val s).value = if m8 then val else val &&& 0xF0 := by
  cases m8 <;>
    simp [__setDataValue, GPIO_setValueLogical, writePin, Pins.set, busValue]
  all_goals
    clear s
    revert val
    decide

/-- The converted low-nibble argument `(uint8_t)(b << 4)` shows the same
high four bits as `b << 4`. -/
theorem shifted_nibble (b : Nat) (hb : b < 256) :
    Fat.toU8 (b <<< 4) < 256 ∧ Fat.toU8 (b <<< 4) &&& 0xF0 = (b <<< 4) &&& 0xF0 := by
  revert b
  decide

/-- One write strobe while the data pins are outputs: the value is put on the
data lines, RS is selected, EN is pulsed; exactly one byte is sent, with the
level RW has at that moment. -/
theorem strobe_spec (m8 : Bool) (val : Nat) (hv : val < 256) (rs : Bool) (s : Lcd)
    (h7 : s.output.d7 = true) (h6 : s.output.d6 = true) (h5 : s.output.d5 = true)
    (h4 : s.output.d4 = true) :
    sent m8 (__pulseEn (writePin .RS rs (__setDataValue m8 val s))).edges =
      sent m8 s.edges ++ [⟨rs, s.value.rw, if m8 then val else val &&& 0xF0⟩] ∧
    (__pulseEn (writePin .RS rs (__setDataValue m8 val s))).output = s.output ∧
    (__pulseEn (writePin .RS rs (__setDataValue m8 val s))).value.rw = s.value.rw ∧
    (__pulseEn (writePin .RS rs (__setDataValue m8 val s))).reads = s.reads := by
  have hb := busValue_setDataValue m8 val hv s
  have ho : (__setDataValue m8 val s).output = s.output := by
    cases m8 <;> simp [__setDataValue, GPIO_setValueLogical, writePin]
  have hrw : (__setDataValue m8 val s).value.rw = s.value.rw := by
    cases m8 <;> simp [__setDataValue, GPIO_setValueLogical, writePin, Pins.set]
  have hed : (__setDataValue m8 val s).edges = s.edges := by
    cases m8 <;> simp [__setDataValue, GPIO_setValueLogical, writePin]
  have hrd : (__setDataValue m8 val s).reads = s.reads := by
    cases m8 <;> simp [__setDataValue, GPIO_setValueLogical, writePin]
  have hbus : ∀ (p : Pins) (a b c : Bool),
      busValue m8 ⟨a, b, c, p.d7, p.d6, p.d5, p.d4, p.d3, p.d2, p.d1, p.d0⟩ =
        busValue m8 p := fun _ _ _ _ => rfl
  refine ⟨?_, ?_, ?_, ?_⟩
  · simp only [__pulseEn, GPIO_setValueHigh, GPIO_setValueLow, writePin, Pins.set, sent,
      List.filterMap_append, hed, ho, Edge.driven, h7, h6, h5, h4, hrw]
    simp [hbus, hb, h7, h6, h5, h4]
  · simp only [__pulseEn, GPIO_setValueHigh, GPIO_setValueLow, writePin, ho]
  · simp only [__pulseEn, GPIO_setValueHigh, GPIO_setValueLow, writePin, Pins.set, hrw]
  · simp only [__pulseEn, GPIO_setValueHigh, GPIO_setValueLow, writePin, hrd]

/-- When the device shows "not busy" within `fuel` polls from any moment on,
`__wait` returns: write is selected, the data pins are outputs again, and
nothing was sent. -/
theorem wait_spec (m8 : Bool) (env : Nat → Bool) (fuel : Nat)
    (hB : ∀ i, ∃ j, j < fuel ∧ env (i + j) = false) (s : Lcd) :
    ∃ s2, __wait m8 env fuel s = some s2 ∧ s2.value.rw = false ∧
      s2.output.d7 = true ∧ s2.output.d6 = true ∧ s2.output.d5 = true ∧
      s2.output.d4 = true ∧ sent m8 s2.edges = sent m8 s.edges := by
  have h7 : (__selInstrReg (__setRead (__setDataInput m8 s))).output.d7 = false := by
    cases m8 <;> simp [__selInstrReg, __setRead, __setDataInput, GPIO_setInput,
      GPIO_setValueLow, GPIO_setValueHigh, writePin, Pins.set]
  have he : (__selInstrReg (__setRead (__setDataInput m8 s))).edges = s.edges := by
    cases m8 <;> simp [__selInstrReg, __setRead, __setDataInput, GPIO_setInput,
      GPIO_setValueLow, GPIO_setValueHigh, writePin, Pins.set]
  obtain ⟨s2, e2, v2, o2, t2⟩ := waitLoop_spec m8 env fuel _ h7 (hB _)
  refine ⟨__setDataOutput m8 (GPIO_setValueLow .EN (__setWrite s2)), ?_, ?_, ?_, ?_, ?_, ?_, ?_⟩
  · simp only [__wait, e2]
  · cases m8 <;> simp [__setDataOutput, GPIO_setOutput, GPIO_setValueLow, __setWrite, writePin,
      Pins.set]
  · cases m8 <;> simp [__setDataOutput, GPIO_setOutput, Pins.set]
  · cases m8 <;> simp [__setDataOutput, GPIO_setOutput, Pins.set]
  · cases m8 <;> simp [__setDataOutput, GPIO_setOutput, Pins.set]
  · cases m8 <;> simp [__setDataOutput, GPIO_setOutput, Pins.set]
  · have hed : (__setDataOutput m8 (GPIO_setValueLow .EN (__setWrite s2))).edges =
        s2.edges ++ [⟨{ s2.value with rw := false }, s2.output⟩] := by
      cases m8 <;> simp [__setDataOutput, GPIO_setOutput, GPIO_setValueLow, __setWrite,
        writePin, Pins.set, v2]
    rw [hed, ← he, ← t2]
    simp [sent, Edge.driven, o2, h7]

/-- When the device shows "not busy" within `fuel` polls from any moment on,
`__writeInstrReg` returns and sends exactly the write cycles of the
instruction byte. -/
theorem writeInstrReg_spec (m8 : Bool) (env : Nat → Bool) (fuel : Nat)
    (hB : ∀ i, ∃ j, j < fuel ∧ env (i + j) = false) (instr : Nat) (hi : instr < 256)
    (s : Lcd) :
    ∃ s2, __writeInstrReg m8 env fuel instr s = some s2 ∧
      sent m8 s2.edges = sent m8 s.edges ++ instrWrite m8 instr := by
  obtain ⟨s1, e1, rw1, a7, a6, a5, a4, t1⟩ := wait_spec m8 env fuel hB s
  obtain ⟨b1, b2, b3, _⟩ := strobe_spec m8 instr hi false s1 a7 a6 a5 a4
  cases m8 with
  | true =>
    refine ⟨__pulseEn (writePin .RS false (__setDataValue true instr s1)), ?_, ?_⟩
    · simp only [__writeInstrReg, e1, if_true, __selInstrReg, GPIO_setValueLow]
    · rw [b1, t1, rw1]
      simp [instrWrite]
  | false =>
    obtain ⟨hs1, hs2⟩ := shifted_nibble instr hi
    obtain ⟨c1, _, _, _⟩ := strobe_spec false (Fat.toU8 (instr <<< 4)) hs1 false
      (__pulseEn (writePin .RS false (__setDataValue false instr s1)))
      (by rw [b2]; exact a7) (by rw [b2]; exact a6) (by rw [b2]; exact a5)
      (by rw [b2]; exact a4)
    refine ⟨__pulseEn (writePin .RS false (__setDataValue false (Fat.toU8 (instr <<< 4))
      (__pulseEn (writePin .RS false (__setDataValue false instr s1))))), ?_, ?_⟩
    · simp [__writeInstrReg, e1, __selInstrReg, GPIO_setValueLow]
    · rw [c1, b1, b3, t1, rw1, hs2]
      simp [instrWrite]

/-- Joining eight levels into a byte as `__readInstrReg` does, in either mode,
gives the byte with those bits. -/
theorem join_levels (a b c d e f g h : Bool) :
    Fat.toU8 (Fat.toU8 (Fat.toU8 (Fat.toU8 (Fat.toU8 (0 + if a then 0x80 else 0) +
        if b then 0x40 else 0) + if c then 0x20 else 0) + if d then 0x10 else 0) +
      (Fat.toU8 (Fat.toU8 (Fat.toU8 (Fat.toU8 (0 + if e then 0x80 else 0) +
        if f then 0x40 else 0) + if g then 0x20 else 0) + if h then 0x10 else 0) >>> 4)) =
      (if a then 0x80 else 0) + (if b then 0x40 else 0) + (if c then 0x20 else 0) +
      (if d then 0x10 else 0) + (if e then 0x8 else 0) + (if f then 0x4 else 0) +
      (if g then 0x2 else 0) + (if h then 0x1 else 0) ∧
    Fat.toU8 (Fat.toU8 (Fat.toU8 (Fat.toU8 (Fat.toU8 (Fat.toU8 (Fat.toU8 (Fat.toU8
        (0 + if a then 0x80 else 0) + if b then 0x40 else 0) + if c then 0x20 else 0) +
        if d then 0x10 else 0) + if e then 0x8 else 0) + if f then 0x4 else 0) +
        if g then 0x2 else 0) + if h then 0x1 else 0) =
      (if a then 0x80 else 0) + (if b then 0x40 else 0) + (if c then 0x20 else 0) +
      (if d then 0x10 else 0) + (if e then 0x8 else 0) + (if f then 0x4 else 0) +
      (if g then 0x2 else 0) + (if h then 0x1 else 0) := by
  revert a b c d e f g h
  decide

/-- `__readDataValue` reads four levels (eight in 8-bit mode), most significant
first, and adds their weights. -/
theorem readDataValue_spec (m8 : Bool) (env : Nat → Bool) (s : Lcd) :
    __readDataValue m8 env s =
      if m8 then
        (Fat.toU8 (Fat.toU8 (Fat.toU8 (Fat.toU8 (Fat.toU8 (Fat.toU8 (Fat.toU8 (Fat.toU8
        (0 + if env s.reads then 0x80 else 0) + if env (s.reads + 1) then 0x40 else 0) +
        if env (s.reads + 2) then 0x20 else 0) +
        if env (s.reads + 3) then 0x10 else 0) + if env (s.reads + 4) then 0x8 else 0) +
        if env (s.reads + 5) then 0x4 else 0) +
        if env (s.reads + 6) then 0x2 else 0) + if env (s.reads + 7) then 0x1 else 0),
          { s with reads := s.reads + 8 })
      else
        (Fat.toU8 (Fat.toU8 (Fat.toU8 (Fat.toU8 (0 + if env s.reads then 0x80 else 0) +
        if env (s.reads + 1) then 0x40 else 0) + if env (s.reads + 2) then 0x20 else 0) +
        if env (s.reads + 3) then 0x10 else 0), { s with reads := s.reads + 4 }) := by
  cases m8
  · simp only [__readDataValue, readBit, GPIO_getInput, Bool.false_eq_true, if_false]
  · simp only [__readDataValue, readBit, GPIO_getInput, if_true]

/-- Writing a pin reads nothing. -/
theorem writePin_reads (p : Pin) (v : Bool) (s : Lcd) : (writePin p v s).reads = s.reads := by
  simp [writePin]

/-- Turning the data pins into inputs reads nothing. -/
theorem setDataInput_reads (m8 : Bool) (s : Lcd) : (__setDataInput m8 s).reads = s.reads := by
  cases m8 <;> simp [__setDataInput, GPIO_setInput]

/-- The register read returns the byte made of the eight levels the device
shows next, and sends nothing. -/
theorem readInstrReg_spec (m8 : Bool) (env : Nat → Bool) (s : Lcd) :
    (__readInstrReg m8 env s).1 = readByte env s.reads ∧
    sent m8 (__readInstrReg m8 env s).2.edges = sent m8 s.edges := by
  have j := join_levels (env s.reads) (env (s.reads + 1)) (env (s.reads + 2))
    (env (s.reads + 3)) (env (s.reads + 4)) (env (s.reads + 5)) (env (s.reads + 6))
    (env (s.reads + 7))
  constructor
  · cases m8
    · simp only [__readInstrReg, readDataValue_spec, Bool.false_eq_true, if_false]
      simp only [GPIO_setValueLow, GPIO_setValueHigh, __setRead, __selInstrReg,
        writePin_reads, setDataInput_reads, Nat.add_assoc, Nat.reduceAdd]
      exact j.1
    · simp only [__readInstrReg, readDataValue_spec, if_true]
      simp only [GPIO_setValueLow, GPIO_setValueHigh, __setRead, __selInstrReg,
        writePin_reads, setDataInput_reads]
      exact j.2
  · cases m8 <;> cases hen : s.value.en <;>
      simp [__readInstrReg, readDataValue_spec, GPIO_setValueLow,
        GPIO_setValueHigh, __setDataInput, __setRead, __selInstrReg, GPIO_setInput, writePin,
        Pins.set, sent, Edge.driven, hen]

/-- The pin set-up at the start of `HD44780_init`: no edge of EN, RW left high,
the data pins outputs. -/
theorem init_prelude (m8 : Bool) (s : Lcd) :
    (initPins m8 s).edges = s.edges ∧ (initPins m8 s).value.rw = true ∧
    (initPins m8 s).output.d7 = true ∧ (initPins m8 s).output.d6 = true ∧
    (initPins m8 s).output.d5 = true ∧ (initPins m8 s).output.d4 = true := by
  cases m8 <;>
    simp [initPins, __setDataOutput, GPIO_setOutput, GPIO_setValueHigh, writePin, Pins.set]

/-- C13 (the code in both modes): when the device shows "not busy" within
`fuel` polls from any moment on, `HD44780_init` returns. In 8-bit mode it sends
0x38, 0x0C, 0x06, 0x01 as instruction writes (RS low, RW low). In 4-bit mode it
sends 0x30 and 0x20 with one strobe each while RW is high, then the nibble pairs
of 0x28, 0x0C, 0x06 and 0x01 as instruction writes. -/
theorem init_sends (env : Nat → Bool) (fuel : Nat)
    (hB : ∀ i, ∃ j, j < fuel ∧ env (i + j) = false) (s : Lcd) :
    (∃ s2, HD44780_init true env fuel s = some s2 ∧
      sent true s2.edges = sent true s.edges ++
        [⟨false, false, 0x38⟩, ⟨false, false, 0x0C⟩, ⟨false, false, 0x06⟩,
         ⟨false, false, 0x01⟩]) ∧
    (∃ s2, HD44780_init false env fuel s = some s2 ∧
      sent false s2.edges = sent false s.edges ++
        [⟨false, true, 0x30⟩, ⟨false, true, 0x20⟩,
         ⟨false, false, 0x20⟩, ⟨false, false, 0x80⟩,
         ⟨false, false, 0x00⟩, ⟨false, false, 0xC0⟩,
         ⟨false, false, 0x00⟩, ⟨false, false, 0x60⟩,
         ⟨false, false, 0x00⟩, ⟨false, false, 0x10⟩]) := by
  constructor
  · obtain ⟨p1, _, _, _, _, _⟩ := init_prelude true s
    obtain ⟨s1, e1, t1⟩ := writeInstrReg_spec true env fuel hB 0x38 (by decide)
      (initPins true s)
    obtain ⟨s2, e2, t2⟩ := writeInstrReg_spec true env fuel hB 0x0C (by decide) s1
    obtain ⟨s3, e3, t3⟩ := writeInstrReg_spec true env fuel hB 0x06 (by decide) s2
    obtain ⟨s4, e4, t4⟩ := writeInstrReg_spec true env fuel hB 0x01 (by decide) s3
    refine ⟨s4, ?_, ?_⟩
    · simp only [HD44780_init, if_true, e1, e2, e3, e4]
    · rw [t4, t3, t2, t1, p1]
      simp [instrWrite]
  · obtain ⟨p1, p2, p7, p6, p5, p4⟩ := init_prelude false s
    obtain ⟨a1, a2, a3, _⟩ := strobe_spec false 0x30 (by decide) false
      (initPins false s) p7 p6 p5 p4
    obtain ⟨b1, _, _, _⟩ := strobe_spec false 0x20 (by decide) false
      (__pulseEn (writePin .RS false (__setDataValue false 0x30 (initPins false s))))
      (by rw [a2]; exact p7) (by rw [a2]; exact p6) (by rw [a2]; exact p5)
      (by rw [a2]; exact p4)
    obtain ⟨s1, e1, t1⟩ := writeInstrReg_spec false env fuel hB 0x28 (by decide)
      (__pulseEn (writePin .RS false (__setDataValue false 0x20
        (__pulseEn (writePin .RS false (__setDataValue false 0x30 (initPins false s)))))))
    obtain ⟨s2, e2, t2⟩ := writeInstrReg_spec false env fuel hB 0x0C (by decide) s1
    obtain ⟨s3, e3, t3⟩ := writeInstrReg_spec false env fuel hB 0x06 (by decide) s2
    obtain ⟨s4, e4, t4⟩ := writeInstrReg_spec false env fuel hB 0x01 (by decide) s3
    refine ⟨s4, ?_, ?_⟩
    · simp only [HD44780_init, Bool.false_eq_true, if_false, __writeInstrReg_8bit,
        __selInstrReg, GPIO_setValueLow, e1, e2, e3, e4]
    · rw [t4, t3, t2, t1, b1, a1, a3, p1, p2]
      simp only [instrWrite, Bool.false_eq_true, if_false, List.append_assoc,
        List.cons_append, List.nil_append]
      congr 1

/-- C13 at a device that is never busy, from the reset pin state: in 4-bit
mode the first two bytes go out with RW high. -/
theorem init_sends_witness :
    ∃ s2, HD44780_init false idleDevice 1 Lcd.reset = some s2 ∧
      sent false s2.edges = sent false Lcd.reset.edges ++
        [⟨false, true, 0x30⟩, ⟨false, true, 0x20⟩,
         ⟨false, false, 0x20⟩, ⟨false, false, 0x80⟩,
         ⟨false, false, 0x00⟩, ⟨false, false, 0xC0⟩,
         ⟨false, false, 0x00⟩, ⟨false, false, 0x60⟩,
         ⟨false, false, 0x00⟩, ⟨false, false, 0x10⟩] :=
  (init_sends idleDevice 1 (fun _ => ⟨0, by decide, rfl⟩) Lcd.reset).2

/-- A strobe that leaves RS as it is: the value is put on the data lines and
EN is pulsed; one byte is sent with the levels RS and RW have. -/
theorem strobe_keep_spec (m8 : Bool) (val : Nat) (hv : val < 256) (s : Lcd)
    (h7 : s.output.d7 = true) (h6 : s.output.d6 = true) (h5 : s.output.d5 = true)
    (h4 : s.output.d4 = true) :
    sent m8 (__pulseEn (__setDataValue m8 val s)).edges =
      sent m8 s.edges ++ [⟨s.value.rs, s.value.rw, if m8 then val else val &&& 0xF0⟩] := by
  have hb := busValue_setDataValue m8 val hv s
  have ho : (__setDataValue m8 val s).output = s.output := by
    cases m8 <;> simp [__setDataValue, GPIO_setValueLogical, writePin]
  have hrw : (__setDataValue m8 val s).value.rw = s.value.rw := by
    cases m8 <;> simp [__setDataValue, GPIO_setValueLogical, writePin, Pins.set]
  have hrs : (__setDataValue m8 val s).value.rs = s.value.rs := by
    cases m8 <;> simp [__setDataValue, GPIO_setValueLogical, writePin, Pins.set]
  have hed : (__setDataValue m8 val s).edges = s.edges := by
    cases m8 <;> simp [__setDataValue, GPIO_setValueLogical, writePin]
  have hbus : ∀ (p : Pins) (a b c : Bool),
      busValue m8 ⟨a, b, c, p.d7, p.d6, p.d5, p.d4, p.d3, p.d2, p.d1, p.d0⟩ =
        busValue m8 p := fun _ _ _ _ => rfl
  simp only [__pulseEn, GPIO_setValueHigh, GPIO_setValueLow, writePin, Pins.set, sent,
    List.filterMap_append, hed, ho, Edge.driven, h7, h6, h5, h4, hrw, hrs]
  simp [hbus, hb, h7, h6, h5, h4]

/-- After a strobe that selects a register, RS holds the selected level. -/
theorem strobe_rs (m8 : Bool) (val : Nat) (rs : Bool) (s : Lcd) :
    (__pulseEn (writePin .RS rs (__setDataValue m8 val s))).value.rs = rs := by
  cases m8 <;>
    simp [__pulseEn, GPIO_setValueHigh, GPIO_setValueLow, writePin, Pins.set]

/-- A byte is the sum of its bits. -/
theorem byte_of_bits (b : Nat) (hb : b < 256) :
    (if b.testBit 7 then 0x80 else 0) + (if b.testBit 6 then 0x40 else 0) +
    (if b.testBit 5 then 0x20 else 0) + (if b.testBit 4 then 0x10 else 0) +
    (if b.testBit 3 then 0x8 else 0) + (if b.testBit 2 then 0x4 else 0) +
    (if b.testBit 1 then 0x2 else 0) + (if b.testBit 0 then 0x1 else 0) = b := by
  revert b
  decide

/-- The nibble arithmetic on every byte. -/
theorem nibble_arith (b : Nat) (hb : b < 256) :
    (b &&& 0xF0) + (((b <<< 4) &&& 0xF0) >>> 4) = b ∧
    (b &&& 0xF0) + (((b <<< 4) &&& 0xF0) >>> 4) < 256 ∧
    Fat.toU8 ((b &&& 0xF0) + (((b <<< 4) &&& 0xF0) >>> 4)) = b := by
  revert b
  decide

/-- C17: in 4-bit mode, for every byte `b`, `__writeInstrReg` sends `b & 0xF0`
and then `(b << 4) & 0xF0` on D7..D4, `__readInstrReg` returns `b` when the
device shows the bits of `b` on its eight successive line reads (high nibble
first), and `(b & 0xF0) + (((b << 4) & 0xF0) >> 4) = b` stays below 256. -/
theorem nibble_split_join (env : Nat → Bool) (fuel : Nat)
    (hB : ∀ i, ∃ j, j < fuel ∧ env (i + j) = false) (b : Nat) (hb : b < 256) (s : Lcd) :
    (∃ s2, __writeInstrReg false env fuel b s = some s2 ∧
      sent false s2.edges = sent false s.edges ++
        [⟨false, false, b &&& 0xF0⟩, ⟨false, false, (b <<< 4) &&& 0xF0⟩]) ∧
    (∀ (dev : Nat → Bool) (t : Lcd),
      (∀ i, i < 8 → dev (t.reads + i) = b.testBit (7 - i)) →
      (__readInstrReg false dev t).1 = b) ∧
    (b &&& 0xF0) + (((b <<< 4) &&& 0xF0) >>> 4) = b ∧
    (b &&& 0xF0) + (((b <<< 4) &&& 0xF0) >>> 4) < 256 := by
  obtain ⟨n1, n2, _⟩ := nibble_arith b hb
  refine ⟨?_, ?_, n1, n2⟩
  · obtain ⟨s2, e2, t2⟩ := writeInstrReg_spec false env fuel hB b hb s
    exact ⟨s2, e2, by rw [t2]; simp [instrWrite]⟩
  · intro dev t hdev
    rw [(readInstrReg_spec false dev t).1]
    have h0 := hdev 0 (by decide)
    have h1 := hdev 1 (by decide)
    have h2 := hdev 2 (by decide)
    have h3 := hdev 3 (by decide)
    have h4 := hdev 4 (by decide)
    have h5 := hdev 5 (by decide)
    have h6 := hdev 6 (by decide)
    have h7 := hdev 7 (by decide)
    simp only [Nat.add_zero] at h0
    simp only [readByte, h0, h1, h2, h3, h4, h5, h6, h7]
    exact byte_of_bits b hb

/-- C17 at the byte 0xA5 with a device that is never busy: the write sends
0xA0 then 0x50. -/
theorem nibble_split_join_witness :
    ∃ s2, __writeInstrReg false idleDevice 1 0xA5 Lcd.reset = some s2 ∧
      sent false s2.edges = sent false Lcd.reset.edges ++
        [⟨false, false, 0xA5 &&& 0xF0⟩, ⟨false, false, (0xA5 <<< 4) &&& 0xF0⟩] :=
  (nibble_split_join idleDevice 1 (fun _ => ⟨0, by decide, rfl⟩) 0xA5 (by decide)
    Lcd.reset).1

/-- One pass of the busy-polling loop reads one level, which is `busy`. -/
theorem waitBody_reads (m8 : Bool) (env : Nat → Bool) (s : Lcd) :
    (waitBody m8 env s).1 = env s.reads ∧ (waitBody m8 env s).2.reads = s.reads + 1 := by
  cases m8 <;>
    simp [waitBody, GPIO_setValueLow, GPIO_setValueHigh, GPIO_getInput, writePin]

/-- When the busy-polling loop returns, it has read the levels up to and
including the first "not busy" one: the `k` levels before it were "busy". -/
theorem waitLoop_reads (m8 : Bool) (env : Nat → Bool) :
    ∀ (fuel : Nat) (s s2 : Lcd), waitLoop m8 env fuel s = some s2 →
      ∃ k, k < fuel ∧ (∀ j, j < k → env (s.reads + j) = true) ∧
        env (s.reads + k) = false ∧ s2.reads = s.reads + k + 1 := by
  intro fuel
  induction fuel with
  | zero => intro s s2 h; simp [waitLoop] at h
  | succ fuel ih =>
    intro s s2 h
    obtain ⟨b1, b2⟩ := waitBody_reads m8 env s
    unfold waitLoop at h
    by_cases hb : env s.reads = true
    · simp only [b1, hb, if_true] at h
      obtain ⟨k, hk, hall, hfree, hr⟩ := ih _ _ h
      rw [b2] at hall hfree hr
      refine ⟨k + 1, by omega, ?_, ?_, ?_⟩
      · intro j hj
        by_cases h0 : j = 0
        · subst h0; simpa using hb
        · have := hall (j - 1) (by omega)
          rw [← this]; congr 1; omega
      · rw [← hfree]; congr 1; omega
      · rw [hr]; omega
    · simp only [b1, hb] at h
      simp only [Bool.false_eq_true, if_false, Option.some.injEq] at h
      refine ⟨0, by omega, ?_, ?_, ?_⟩
      · intro j hj; omega
      · simpa using hb
      · rw [← h, b2]

/-- When `__wait` returns, it has read the levels up to and including the first
"not busy" one. -/
theorem wait_reads (m8 : Bool) (env : Nat → Bool) (fuel : Nat) (s s2 : Lcd)
    (h : __wait m8 env fuel s = some s2) :
    ∃ k, k < fuel ∧ (∀ j, j < k → env (s.reads + j) = true) ∧
      env (s.reads + k) = false ∧ s2.reads = s.reads + k + 1 := by
  have hr : (__selInstrReg (__setRead (__setDataInput m8 s))).reads = s.reads := by
    cases m8 <;> simp [__selInstrReg, __setRead, __setDataInput, GPIO_setInput,
      GPIO_setValueLow, GPIO_setValueHigh, writePin]
  unfold __wait at h
  cases hw : waitLoop m8 env fuel (__selInstrReg (__setRead (__setDataInput m8 s))) with
  | none => simp [hw] at h
  | some s1 =>
    simp only [hw, Option.some.injEq] at h
    obtain ⟨k, hk, hall, hfree, hrd⟩ := waitLoop_reads m8 env fuel _ _ hw
    rw [hr] at hall hfree hrd
    refine ⟨k, hk, hall, hfree, ?_⟩
    rw [← h, ← hrd]
    cases m8 <;> simp [__setDataOutput, GPIO_setOutput, GPIO_setValueLow, __setWrite, writePin]

/-- A strobe that leaves RS as it is reads nothing. -/
theorem strobe_keep_reads (m8 : Bool) (val : Nat) (s : Lcd) :
    (__pulseEn (__setDataValue m8 val s)).reads = s.reads := by
  cases m8 <;>
    simp [__pulseEn, __setDataValue, GPIO_setValueLogical, GPIO_setValueHigh,
      GPIO_setValueLow, writePin]

/-- The register read reads eight levels in either mode. -/
theorem readInstrReg_reads (m8 : Bool) (env : Nat → Bool) (s : Lcd) :
    (__readInstrReg m8 env s).2.reads = s.reads + 8 := by
  cases m8 <;>
    simp [__readInstrReg, readDataValue_spec, GPIO_setValueLow, GPIO_setValueHigh,
      __setDataInput, __setRead, __selInstrReg, GPIO_setInput, writePin]

/-- An instruction write that returns has polled the busy flag at least once. -/
theorem writeInstrReg_reads (m8 : Bool) (env : Nat → Bool) (fuel : Nat) (instr : Nat)
    (s s2 : Lcd) (h : __writeInstrReg m8 env fuel instr s = some s2) :
    s.reads < s2.reads := by
  unfold __writeInstrReg at h
  cases hw : __wait m8 env fuel s with
  | none => simp [hw] at h
  | some s1 =>
    obtain ⟨k, _, _, _, hr⟩ := wait_reads m8 env fuel s s1 hw
    have h2 : s2.reads = s1.reads := by
      cases m8 <;>
        · simp only [hw, Bool.false_eq_true, if_false, if_true, Option.some.injEq] at h
          rw [← h]
          simp [__pulseEn, __setDataValue, __selInstrReg, GPIO_setValueLogical,
            GPIO_setValueHigh, GPIO_setValueLow, writePin]
    omega

/-- On a device whose busy flag never clears the polling loop does not return,
whatever the number of polls allowed. -/
theorem waitLoop_busy (m8 : Bool) :
    ∀ (fuel : Nat) (s : Lcd), waitLoop m8 busyDevice fuel s = none := by
  intro fuel
  induction fuel with
  | zero => intro s; rfl
  | succ fuel ih =>
    intro s
    obtain ⟨b1, _⟩ := waitBody_reads m8 busyDevice s
    unfold waitLoop
    have hb : (waitBody m8 busyDevice s).1 = true := by rw [b1]; rfl
    simp only [hb, if_true]
    exact ih _

/-- C18 (as stated, refuted): on a device whose busy flag never clears,
`HD44780_printChar` does not return for the character 'A', whatever the number
of busy polls allowed, so it does not return true for every character. -/
theorem printChar_never_returns_when_busy :
    ¬ ∃ fuel r, HD44780_printChar false busyDevice fuel 65 true Lcd.reset = some r := by
  rintro ⟨fuel, r, h⟩
  have hw : __wait false busyDevice fuel Lcd.reset = none := by
    simp only [__wait, waitLoop_busy]
  simp [HD44780_printChar, hw] at h

/-- C18 (amended): when the device shows "not busy" within `fuel` polls from
any moment on, `HD44780_printChar` returns true for every character and either
value of `blocking`, which does not change the result. For the newline (10) it
sends only the instruction 0xC0. For the carriage return (13) it leaves the
pins as they are. For any other character it polls until the first "not busy"
level (poll number `k`), sends the character as one data-register byte, reads
the instruction register from the next eight levels, and then sends the
instruction 0xC0 exactly when the value read, masked with 0x7F, is 16; without
that instruction it has read `k + 9` levels in all, with it more. -/
theorem printChar_sends (m8 : Bool) (env : Nat → Bool) (fuel : Nat)
    (hB : ∀ i, ∃ j, j < fuel ∧ env (i + j) = false) (c : Nat) (hc : c < 256)
    (blocking : Bool) (s : Lcd) :
    HD44780_printChar m8 env fuel c true s = HD44780_printChar m8 env fuel c false s ∧
    ∃ s2, HD44780_printChar m8 env fuel c blocking s = some (true, s2) ∧
      (c = 10 → sent m8 s2.edges = sent m8 s.edges ++ instrWrite m8 0xC0) ∧
      (c = 13 → s2 = s) ∧
      (c ≠ 10 → c ≠ 13 → ∃ k, k < fuel ∧
        (∀ j, j < k → env (s.reads + j) = true) ∧ env (s.reads + k) = false ∧
        sent m8 s2.edges = sent m8 s.edges ++ dataWrite m8 c ++
          (if readByte env (s.reads + k + 1) &&& 0x7f = 16 then instrWrite m8 0xC0
            else []) ∧
        (readByte env (s.reads + k + 1) &&& 0x7f ≠ 16 → s2.reads = s.reads + k + 9) ∧
        (readByte env (s.reads + k + 1) &&& 0x7f = 16 → s.reads + k + 9 < s2.reads)) := by
  refine ⟨rfl, ?_⟩
  by_cases h10 : c = 10
  · obtain ⟨s2, e2, t2⟩ := writeInstrReg_spec m8 env fuel hB 0xC0 (by decide) s
    refine ⟨s2, ?_, fun _ => t2, ?_, fun h => absurd h10 h⟩
    · simp only [HD44780_printChar, h10, if_true, e2]
    · intro h13; omega
  · by_cases h13 : c = 13
    · refine ⟨s, ?_, fun h => absurd h h10, fun _ => rfl, fun _ h => absurd h13 h⟩
      simp only [HD44780_printChar, h13]
      simp
    · obtain ⟨s1, e1, rw1, a7, a6, a5, a4, t1⟩ := wait_spec m8 env fuel hB s
      obtain ⟨k, hk, hall, hfree, hrd⟩ := wait_reads m8 env fuel s s1 e1
      obtain ⟨b1, b2, b3, b4⟩ := strobe_spec m8 c hc true s1 a7 a6 a5 a4
      have brs := strobe_rs m8 c true s1
      have hsm : ∃ sm, sent m8 sm.edges = sent m8 s.edges ++ dataWrite m8 c ∧
          sm.reads = s1.reads ∧
          HD44780_printChar m8 env fuel c blocking s =
            (if (__readInstrReg m8 env sm).1 &&& 0x7f = 16 then
              match __writeInstrReg m8 env fuel 0xC0 (__readInstrReg m8 env sm).2 with
              | none => none
              | some s3 => some (true, s3)
            else some (true, (__readInstrReg m8 env sm).2)) := by
        cases m8 with
        | true =>
          refine ⟨__pulseEn (writePin .RS true (__setDataValue true c s1)), ?_, b4, ?_⟩
          · rw [b1, t1, rw1]
            simp [dataWrite]
          · simp only [HD44780_printChar, h10, h13, if_false, e1, if_true, __selDataReg,
              GPIO_setValueHigh]
        | false =>
          obtain ⟨hs1, hs2⟩ := shifted_nibble c hc
          have c1 := strobe_keep_spec false (Fat.toU8 (c <<< 4)) hs1
            (__pulseEn (writePin .RS true (__setDataValue false c s1)))
            (by rw [b2]; exact a7) (by rw [b2]; exact a6) (by rw [b2]; exact a5)
            (by rw [b2]; exact a4)
          refine ⟨__pulseEn (__setDataValue false (Fat.toU8 (c <<< 4))
            (__pulseEn (writePin .RS true (__setDataValue false c s1)))), ?_, ?_, ?_⟩
          · rw [c1, b1, b3, brs, t1, rw1, hs2]
            simp [dataWrite]
          · rw [strobe_keep_reads, b4]
          · simp only [HD44780_printChar, h10, h13, if_false, e1, Bool.false_eq_true,
              __selDataReg, GPIO_setValueHigh]
      obtain ⟨sm, hsent, hsmr, hrun⟩ := hsm
      obtain ⟨r1, r2⟩ := readInstrReg_spec m8 env sm
      have r3 := readInstrReg_reads m8 env sm
      have hidx : sm.reads = s.reads + k + 1 := by rw [hsmr, hrd]
      rw [hidx] at r1
      by_cases h16 : (__readInstrReg m8 env sm).1 &&& 0x7f = 16
      · obtain ⟨s3, e3, t3⟩ := writeInstrReg_spec m8 env fuel hB 0xC0 (by decide)
          (__readInstrReg m8 env sm).2
        have hlt := writeInstrReg_reads m8 env fuel 0xC0 _ s3 e3
        refine ⟨s3, ?_, fun h => absurd h h10, fun h => absurd h h13, fun _ _ => ?_⟩
        · rw [hrun, if_pos h16, e3]
        · rw [r1] at h16
          refine ⟨k, hk, hall, hfree, ?_, fun h => absurd h16 h, fun _ => ?_⟩
          · rw [if_pos h16, t3, r2, hsent]
          · omega
      · refine ⟨(__readInstrReg m8 env sm).2, ?_, fun h => absurd h h10,
          fun h => absurd h h13, fun _ _ => ?_⟩
        · rw [hrun, if_neg h16]
        · rw [r1] at h16
          refine ⟨k, hk, hall, hfree, ?_, fun _ => ?_, fun h => absurd h h16⟩
          · rw [if_neg h16, r2, hsent, List.append_nil]
          · omega

/-- The device that shows high only at read number 4 is "not busy" within two
polls from any moment on. -/
theorem wrapDevice_not_busy : ∀ i, ∃ j, j < 2 ∧ wrapDevice (i + j) = false := by
  intro i
  by_cases h : i = 4
  · exact ⟨1, by decide, by subst h; rfl⟩
  · exact ⟨0, by decide, by simp [wrapDevice, h]⟩

/-- C18 (amended) at the character 'A' in 4-bit mode with the device that shows
0x10 on the register read: the call returns true. -/
theorem printChar_sends_witness :
    ∃ s2, HD44780_printChar false wrapDevice 2 65 true Lcd.reset = some (true, s2) ∧
      (65 = 10 → sent false s2.edges = sent false Lcd.reset.edges ++ instrWrite false 0xC0) ∧
      (65 = 13 → s2 = Lcd.reset) ∧
      (65 ≠ 10 → 65 ≠ 13 → ∃ k, k < 2 ∧
        (∀ j, j < k → wrapDevice (Lcd.reset.reads + j) = true) ∧
        wrapDevice (Lcd.reset.reads + k) = false ∧
        sent false s2.edges = sent false Lcd.reset.edges ++ dataWrite false 65 ++
          (if readByte wrapDevice (Lcd.reset.reads + k + 1) &&& 0x7f = 16
            then instrWrite false 0xC0 else []) ∧
        (readByte wrapDevice (Lcd.reset.reads + k + 1) &&& 0x7f ≠ 16 →
          s2.reads = Lcd.reset.reads + k + 9) ∧
        (readByte wrapDevice (Lcd.reset.reads + k + 1) &&& 0x7f = 16 →
          Lcd.reset.reads + k + 9 < s2.reads)) :=
  (printChar_sends false wrapDevice 2 wrapDevice_not_busy 65 (by decide) true Lcd.reset).2

/-- The call for 'A' in 4-bit mode evaluated on two devices. When the register
read shows 0x10 the data byte is followed by the instruction 0xC0, after ten
reads in all (one poll, eight register levels, one more poll); when it shows 0
the data byte is all that is sent, after nine reads. -/
theorem printChar_evaluated :
    (HD44780_printChar false wrapDevice 2 65 true Lcd.reset).map
        (fun r => (r.1, sent false r.2.edges, r.2.reads)) =
      some (true, [⟨true, false, 0x40⟩, ⟨true, false, 0x10⟩, ⟨false, false, 0xC0⟩,
        ⟨false, false, 0x00⟩], 10) ∧
    (HD44780_printChar false idleDevice 1 65 true Lcd.reset).map
        (fun r => (r.1, sent false r.2.edges, r.2.reads)) =
      some (true, [⟨true, false, 0x40⟩, ⟨true, false, 0x10⟩], 9) := by
  decide

end Hd44780
